import Mathlib

/-!
# Verification of the GAQL builder (validation, escaping and rendering engine)

Shallow embedding of the repository's core:
* `src/constants.ts` — operator / date-range / aggregate vocabularies and `QUERY_LIMITS`;
* `src/validators.ts` — name, date and regex-safety validators;
* `src/gaqlBuilder.ts` (the v0.3.0 class `GaqlBuilder`) — the fluent builder.

Modelling conventions:
* JavaScript numbers are modelled by `JSNum`: finite numbers as integers (the
  only finite numbers the claims exercise) plus `nan`, `inf` and `negInf`.
* The mutable builder class is modelled by the record `BState`; every fluent
  method becomes a function `BState → Option GaqlError × BState` returning the
  error thrown (if any) together with the state of the object after the call,
  so that partial mutation before a throw is observable exactly as in the
  source.  `build` returns the state and the produced string likewise.
* JavaScript `RegExp.test` calls against the fixed patterns of
  `isSafeRegexPattern` are compiled by hand to string scans; each scan is
  documented next to the regular expression it implements.
* JavaScript objects (`Record<string, …>`) are modelled as association lists
  in insertion order with distinct keys.
-/

/-- JavaScript number: finite values are modelled as integers, plus the three
non-finite values `NaN`, `Infinity` and `-Infinity`. -/
inductive JSNum where
  | int : Int → JSNum
  | nan : JSNum
  | inf : JSNum
  | negInf : JSNum
deriving DecidableEq, Repr

/-- `Number.isFinite` -/
def JSNum.isFinite : JSNum → Bool
  | .int _ => true
  | _ => false

/-- JavaScript `String(n)` on a number (decimal form for the modelled finite
integers). -/
def JSNum.render : JSNum → String
  | .int k => toString k
  | .nan => "NaN"
  | .inf => "Infinity"
  | .negInf => "-Infinity"

/-- `type GaqlValue = string | number | boolean | null` -/
inductive GaqlValue where
  | str : String → GaqlValue
  | num : JSNum → GaqlValue
  | bool : Bool → GaqlValue
  | null : GaqlValue
deriving DecidableEq, Repr

/-- The four error classes of `src/errors.ts`. -/
inductive GaqlError where
  | validation : String → GaqlError
  | queryBuild : String → GaqlError
  | security : String → GaqlError
  | queryLimit : String → GaqlError
deriving DecidableEq, Repr

/-! ## Constants (`src/constants.ts`) -/

def VALID_OPERATORS : List String := ["=", "!=", ">", ">=", "<", "<="]

def VALID_DATE_RANGES : List String :=
  ["TODAY", "YESTERDAY", "LAST_7_DAYS", "LAST_14_DAYS", "LAST_30_DAYS",
   "LAST_BUSINESS_WEEK", "LAST_WEEK_SUN_SAT", "LAST_WEEK_MON_SUN",
   "THIS_MONTH", "LAST_MONTH", "ALL_TIME"]

def AGGREGATE_FUNCTIONS : List String :=
  ["SUM", "COUNT", "AVG", "MIN", "MAX", "COUNT_DISTINCT"]

def SORT_DIRECTIONS : List String := ["ASC", "DESC"]

def MAX_SELECT_FIELDS : Nat := 500
def MAX_WHERE_CONDITIONS : Nat := 100
def MAX_ORDER_BY_FIELDS : Nat := 10
def MAX_GROUP_BY_FIELDS : Nat := 10
def MAX_PARAMETERS : Nat := 50
def MAX_ARRAY_VALUES : Nat := 1000
def MAX_QUERY_LENGTH : Nat := 100000
def MAX_REGEX_LENGTH : Nat := 1000
def MAX_REGEX_COMPLEXITY : Nat := 50

/-! ## Name validators (`src/validators.ts`) -/

/-- `[a-zA-Z_]` — first character of an identifier segment. -/
def isIdentStart (c : Char) : Bool :=
  c.isAlpha || c = '_'

/-- `[a-zA-Z0-9_]` — subsequent characters of an identifier segment. -/
def isIdentChar (c : Char) : Bool :=
  c.isAlpha || c.isDigit || c = '_'

mutual

/-- One segment of a dotted identifier:
`[a-zA-Z_][a-zA-Z0-9_]*` optionally followed by `.`-separated further
segments (the whole regex `[a-zA-Z_][a-zA-Z0-9_]*(\.[a-zA-Z_][a-zA-Z0-9_]*)*`
anchored on both sides). -/
def dottedIdent : List Char → Bool
  | [] => false
  | c :: rest => isIdentStart c && dottedRest rest

/-- Remainder of a segment: identifier characters until the end or a `.`
starting a new segment. -/
def dottedRest : List Char → Bool
  | [] => true
  | '.' :: rest => dottedIdent rest
  | c :: rest => isIdentChar c && dottedRest rest

end

/-- A single identifier segment: regex `^[a-zA-Z_][a-zA-Z0-9_]*$`. -/
def simpleIdent : List Char → Bool
  | [] => false
  | c :: rest => isIdentStart c && rest.all isIdentChar

/-- Tail of an aggregate expression after `fn ++ "("`: a dotted identifier
closed by a final `)`. -/
def aggClose (l : List Char) : Bool :=
  l.getLast? = some ')' && dottedIdent l.dropLast

/-- `field` must equal `fn ++ "(" ++ mid ++ ")"` with `mid` a dotted
identifier, for one of the `AGGREGATE_FUNCTIONS` `fn`.  Implements the
anchored alternation regex built in `isValidFieldName`. -/
def isAggregateExpr (field : String) : Bool :=
  AGGREGATE_FUNCTIONS.any fun fn =>
    (fn.data ++ ['(']).isPrefixOf field.data &&
      aggClose (field.data.drop (fn.length + 1))

/-- `isValidFieldName` of `src/validators.ts`: an aggregate call or a dotted
identifier. -/
def isValidFieldName (field : String) : Bool :=
  isAggregateExpr field || dottedIdent field.data

/-- `isValidResourceName`: regex `^[a-zA-Z_][a-zA-Z0-9_]*$`. -/
def isValidResourceName (resource : String) : Bool :=
  simpleIdent resource.data

/-- `isValidParameterName`: regex `^[a-zA-Z_][a-zA-Z0-9_]*$`. -/
def isValidParameterName (paramName : String) : Bool :=
  simpleIdent paramName.data

/-- `isValidOperator`: membership in `VALID_OPERATORS`. -/
def isValidOperator (operator : String) : Bool :=
  VALID_OPERATORS.contains operator

/-! ## Date model and `isValidDateRange` (`src/validators.ts`) -/

/-- Gregorian leap-year rule. -/
def isLeap (y : Int) : Bool :=
  y % 4 = 0 && (y % 100 != 0 || y % 400 = 0)

/-- Number of days of month `m` (1-based) of year `y`. -/
def daysInMonth (y m : Int) : Int :=
  if m = 2 then (if isLeap y then 29 else 28)
  else if m = 4 || m = 6 || m = 9 || m = 11 then 30
  else 31

/-- Day-of-month normalisation of the ECMAScript `Date` constructor, for the
bounded arguments the date validator produces (month already normalised to
1..12, day in 0..99): a non-positive day borrows from the previous month, a
day past the end of the month rolls into the following months.  The fuel `8`
is ample for day values up to 99. -/
def normDay : Nat → Int → Int → Int → Int × Int × Int
  | 0, y, m, d => (y, m, d)
  | fuel + 1, y, m, d =>
    if d < 1 then
      if m = 1 then normDay fuel (y - 1) 12 (d + daysInMonth (y - 1) 12)
      else normDay fuel y (m - 1) (d + daysInMonth y (m - 1))
    else if d > daysInMonth y m then
      if m = 12 then normDay fuel (y + 1) 1 (d - daysInMonth y m)
      else normDay fuel y (m + 1) (d - daysInMonth y m)
    else (y, m, d)

/-- `new Date(year, monthIndex, day)` restricted to its local date components
`(getFullYear(), getMonth() + 1, getDate())`: the two-digit-year rule maps
`0 ≤ year ≤ 99` to `1900 + year`, the month index is normalised by floored
division, then the day is normalised.  Returned month is 1-based. -/
def jsNewDateYMD (year monthIndex day : Int) : Int × Int × Int :=
  let y := if 0 ≤ year && year ≤ 99 then year + 1900 else year
  let ym := y + Int.fdiv monthIndex 12
  let mn := Int.emod monthIndex 12
  normDay 8 ym (mn + 1) day

/-- Numeric value of a decimal digit character. -/
def digitVal (c : Char) : Int :=
  Int.ofNat (c.toNat - '0'.toNat)

/-- The regex test `/^\d{4}-\d{2}-\d{2}$/.test(dateRange)` combined with
`dateRange.split('-').map(Number)`: `some (year, month, day)` exactly when
the string has the `YYYY-MM-DD` shape. -/
def parseYMD (s : String) : Option (Int × Int × Int) :=
  match s.data with
  | [a, b, c, d, '-', e, f, '-', g, h] =>
    if (a.isDigit && b.isDigit && c.isDigit && d.isDigit &&
        e.isDigit && f.isDigit && g.isDigit && h.isDigit) then
      some (((digitVal a * 10 + digitVal b) * 10 + digitVal c) * 10 + digitVal d,
            digitVal e * 10 + digitVal f,
            digitVal g * 10 + digitVal h)
    else none
  | _ => none

/-- `isValidDateRange` of `src/validators.ts`: membership in
`VALID_DATE_RANGES`, or the regex `^\d{4}-\d{2}-\d{2}$` together with the
`Date` round-trip check `getFullYear() === year && getMonth() === month - 1
&& getDate() === day`. -/
def isValidDateRange (dateRange : String) : Bool :=
  if VALID_DATE_RANGES.contains dateRange then true
  else
    match parseYMD dateRange with
    | some (year, month, day) => jsNewDateYMD year (month - 1) day = (year, month, day)
    | none => false

/-! ## Regex safety checker (`isSafeRegexPattern` of `src/validators.ts`)

Each entry of the source's `dangerousPatterns` array is an unanchored
JavaScript regular expression tested against the pattern; the fixed
expressions are compiled by hand to the equivalent substring scans below. -/

/-- `\{(\d{3,}|\d+,)\}` matched at the head of the character list: an opening
brace, then either at least three digits followed by a closing brace, or at
least one digit followed by a comma and a closing brace. -/
def repQuantAt (l : List Char) : Bool :=
  match l with
  | '\x7b' :: rest =>
    let digits := rest.takeWhile Char.isDigit
    let after := rest.dropWhile Char.isDigit
    (digits.length ≥ 3 && after.head? = some '\x7d') ||
      (digits.length ≥ 1 && after.take 2 = [',', '\x7d'])
  | _ => false

/-- Scan for `\)\{(\d{3,}|\d+,)\}` with no newline allowed before the `)`
(the `.*` of the source regex does not match newlines): used by `check6From`
after an opening parenthesis has been seen. -/
def closeThenQuant : List Char → Bool
  | [] => false
  | ')' :: rest => repQuantAt rest || closeThenQuant rest
  | '\n' :: _ => false
  | _ :: rest => closeThenQuant rest

/-- `/\(.*\)\{(\d{3,}|\d+,)\}/.test(pattern)`: somewhere an `(`, later on the
same line a `)` immediately followed by a large bounded repetition. -/
def hasLargeRepetition : List Char → Bool
  | [] => false
  | '(' :: rest => closeThenQuant rest || hasLargeRepetition rest
  | _ :: rest => hasLargeRepetition rest

/-- `sub` occurs as a contiguous run inside `l`. -/
def infixScan (sub : List Char) : List Char → Bool
  | [] => sub.isEmpty
  | c :: rest => sub.isPrefixOf (c :: rest) || infixScan sub rest

/-- Substring test: implements `re.test s` for a regular expression
consisting only of literal characters (after unescaping). -/
def containsSub (sub s : String) : Bool :=
  infixScan sub.data s.data

/-- Maximum parenthesis nesting depth, with depth clamped at zero on
unmatched closing parentheses, as in the source loop. -/
def maxParenDepthAux : Nat → Nat → List Char → Nat
  | _, maxD, [] => maxD
  | depth, maxD, c :: rest =>
    if c = '(' then maxParenDepthAux (depth + 1) (max maxD (depth + 1)) rest
    else if c = ')' then maxParenDepthAux (depth - 1) maxD rest
    else maxParenDepthAux depth maxD rest

def maxParenDepth (l : List Char) : Nat :=
  maxParenDepthAux 0 0 l

/-- `isSafeRegexPattern` of `src/validators.ts`: length ceiling, the eight
dangerous shapes, and the nesting-depth ceiling.
The fixed dangerous regexes `/(\.\*){2,}/`, `/(\.\+){2,}/`, `/(\\w\*){3,}/`,
`/(\\w\+){3,}/`, `/(\[\\w\]\*){3,}/`, `/\(\.\*\|\.\*\)/` and `/\(\.\+\|\.\+\)/`
are (unanchored) repetitions/sequences of literal characters, hence equivalent
to the substring tests below; `/\(.*\)\{(\d{3,}|\d+,)\}/` is `hasLargeRepetition`. -/
def isSafeRegexPattern (pattern : String) : Bool :=
  if pattern.length > MAX_REGEX_LENGTH then false
  else if containsSub ".*.*" pattern then false
  else if containsSub ".+.+" pattern then false
  else if containsSub "\\w*\\w*\\w*" pattern then false
  else if containsSub "\\w+\\w+\\w+" pattern then false
  else if containsSub "[\\w]*[\\w]*[\\w]*" pattern then false
  else if hasLargeRepetition pattern.data then false
  else if containsSub "(.*|.*)" pattern then false
  else if containsSub "(.+|.+)" pattern then false
  else if maxParenDepth pattern.data > MAX_REGEX_COMPLEXITY then false
  else true

/-- Whitespace characters stripped by `String.prototype.jsTrim()` (modelled for
the ASCII whitespace characters the builder's callers can reach). -/
def isJsSpace (c : Char) : Bool :=
  c = ' ' || c = '\t' || c = '\n' || c = '\r' || c = '\x0b' || c = '\x0c'

/-- `String.prototype.jsTrim()`: strips leading and trailing whitespace. -/
def String.jsTrim (s : String) : String :=
  String.mk (((s.data.dropWhile isJsSpace).reverse.dropWhile isJsSpace).reverse)

/-! ## Builder state (`src/gaqlBuilder.ts`, class `GaqlBuilder`) -/

/-- The private fields of `GaqlBuilder`; `orderByFields` stores the direction
as the string the caller passed (the source performs a runtime membership
check against `SORT_DIRECTIONS`, so a bypassed type annotation is observable),
`queryParameters` is the insertion-ordered association list of the parameter
object. -/
structure BState where
  selectFields : List String := []
  fromResource : String := ""
  whereConditions : List String := []
  groupByFields : List String := []
  orderByFields : List (String × String) := []
  limitCount : Option JSNum := none
  queryParameters : List (String × GaqlValue) := []
deriving DecidableEq, Repr

/-- `new GaqlBuilder()` -/
def emptyBuilder : BState := {}

/-- Result of one fluent call: the error thrown, if any, together with the
state of the object after the call (mutations performed before a throw are
visible in the second component, as in the source). -/
abbrev OpResult := Option GaqlError × BState

namespace GaqlBuilder

/-- `value.replace(/'/g, "''")` — every single quote doubled. -/
def escapeQuotes (s : String) : String :=
  String.mk (s.data.foldr (fun c acc => if c = '\'' then '\'' :: '\'' :: acc else c :: acc) [])

/-- `formatValue`: strings single-quoted with quotes doubled, booleans as
`TRUE`/`FALSE`, `null` as `NULL`, numbers via `String(value)`. -/
def formatValue : GaqlValue → String
  | .str s => "'" ++ escapeQuotes s ++ "'"
  | .bool b => if b then "TRUE" else "FALSE"
  | .null => "NULL"
  | .num n => n.render

/-- `formatCondition` -/
def formatCondition (field operator : String) (value : GaqlValue) : String :=
  field ++ " " ++ operator ++ " " ++ formatValue value

/-- `formatPattern`: only single quotes doubled. -/
def formatPattern (pattern : String) : String :=
  escapeQuotes pattern

/-- `formatParameterValue`: booleans as lowercase `true`/`false`, anything
else via `String(value)` without quoting. -/
def formatParameterValue : GaqlValue → String
  | .bool b => if b then "true" else "false"
  | .str s => s
  | .null => "null"
  | .num n => n.render

/-- Validation of one select field list, mirroring
`fields.map((field) => { const t = field.jsTrim(); validateFieldName(t); return t; })`:
fields are trimmed and validated left to right, the first invalid one throws
(before the assignment to `#selectFields`, so `select` never partially
mutates). -/
def mapTrimValidate : List String → Except GaqlError (List String)
  | [] => .ok []
  | f :: rest =>
    let t := f.jsTrim
    if isValidFieldName t then
      match mapTrimValidate rest with
      | .ok ts => .ok (t :: ts)
      | .error e => .error e
    else
      .error (.validation ("Invalid field name. Expected: alphanumeric with dots/underscores or aggregate function, Received: \"" ++ t ++ "\""))

/-- `select(fields)` -/
def select (s : BState) (fields : List String) : OpResult :=
  if fields.length = 0 then
    (some (.validation "SELECT clause requires at least one field. Expected: non-empty array, Received: empty array"), s)
  else if fields.length > MAX_SELECT_FIELDS then
    (some (.queryLimit ("SELECT clause exceeds maximum field limit. Expected: <= 500 fields, Received: " ++ toString fields.length ++ " fields")), s)
  else
    match mapTrimValidate fields with
    | .ok ts => (none, { s with selectFields := ts })
    | .error e => (some e, s)

/-- `from(resource)` -/
def fromOp (s : BState) (resource : String) : OpResult :=
  let trimmed := resource.jsTrim
  if trimmed = "" then
    (some (.validation ("FROM clause requires a resource. Expected: non-empty string, Received: \"" ++ resource ++ "\"")), s)
  else if isValidResourceName trimmed then
    (none, { s with fromResource := trimmed })
  else
    (some (.validation ("Invalid resource name. Expected: alphanumeric with underscores only, Received: \"" ++ trimmed ++ "\"")), s)

/-- `where(field, operator, value)` -/
def whereOp (s : BState) (field operator : String) (value : GaqlValue) : OpResult :=
  if s.whereConditions.length ≥ MAX_WHERE_CONDITIONS then
    (some (.queryLimit ("WHERE clause exceeds maximum condition limit. Expected: < 100 conditions, Received: " ++ toString s.whereConditions.length ++ " conditions")), s)
  else if ¬ isValidOperator operator then
    (some (.validation ("Invalid operator. Expected one of: =, !=, >, >=, <, <=, Received: \"" ++ operator ++ "\"")), s)
  else if ¬ isValidFieldName field then
    (some (.validation ("Invalid field name. Expected: alphanumeric with dots/underscores or aggregate function, Received: \"" ++ field ++ "\"")), s)
  else
    (none, { s with whereConditions := s.whereConditions ++ [formatCondition field operator value] })

/-- `andWhere` — alias of `where`. -/
def andWhere (s : BState) (field operator : String) (value : GaqlValue) : OpResult :=
  whereOp s field operator value

/-- `whereIn(field, values)` -/
def whereIn (s : BState) (field : String) (values : List GaqlValue) : OpResult :=
  if values.length = 0 then
    (some (.validation ("IN clause requires at least one value. Expected: non-empty array, Received: empty array for field \"" ++ field ++ "\"")), s)
  else if ¬ isValidFieldName field then
    (some (.validation ("Invalid field name. Expected: alphanumeric with dots/underscores or aggregate function, Received: \"" ++ field ++ "\"")), s)
  else
    (none, { s with whereConditions := s.whereConditions ++ [field ++ " IN (" ++ String.intercalate ", " (values.map formatValue) ++ ")"] })

/-- `whereNotIn(field, values)` -/
def whereNotIn (s : BState) (field : String) (values : List GaqlValue) : OpResult :=
  if values.length = 0 then
    (some (.validation ("NOT IN clause requires at least one value. Expected: non-empty array, Received: empty array for field \"" ++ field ++ "\"")), s)
  else if ¬ isValidFieldName field then
    (some (.validation ("Invalid field name. Expected: alphanumeric with dots/underscores or aggregate function, Received: \"" ++ field ++ "\"")), s)
  else
    (none, { s with whereConditions := s.whereConditions ++ [field ++ " NOT IN (" ++ String.intercalate ", " (values.map formatValue) ++ ")"] })

/-- `whereLike(field, pattern)` — note: the source validates only the field;
the pattern receives quote-escaping but no safety check. -/
def whereLike (s : BState) (field pattern : String) : OpResult :=
  if ¬ isValidFieldName field then
    (some (.validation ("Invalid field name. Expected: alphanumeric with dots/underscores or aggregate function, Received: \"" ++ field ++ "\"")), s)
  else
    (none, { s with whereConditions := s.whereConditions ++ [field ++ " LIKE '" ++ formatPattern pattern ++ "'"] })

/-- `whereNotLike(field, pattern)` -/
def whereNotLike (s : BState) (field pattern : String) : OpResult :=
  if ¬ isValidFieldName field then
    (some (.validation ("Invalid field name. Expected: alphanumeric with dots/underscores or aggregate function, Received: \"" ++ field ++ "\"")), s)
  else
    (none, { s with whereConditions := s.whereConditions ++ [field ++ " NOT LIKE '" ++ formatPattern pattern ++ "'"] })

/-- `whereNull(field)` -/
def whereNull (s : BState) (field : String) : OpResult :=
  if ¬ isValidFieldName field then
    (some (.validation ("Invalid field name. Expected: alphanumeric with dots/underscores or aggregate function, Received: \"" ++ field ++ "\"")), s)
  else
    (none, { s with whereConditions := s.whereConditions ++ [field ++ " IS NULL"] })

/-- `whereNotNull(field)` -/
def whereNotNull (s : BState) (field : String) : OpResult :=
  if ¬ isValidFieldName field then
    (some (.validation ("Invalid field name. Expected: alphanumeric with dots/underscores or aggregate function, Received: \"" ++ field ++ "\"")), s)
  else
    (none, { s with whereConditions := s.whereConditions ++ [field ++ " IS NOT NULL"] })

/-- `whereBetween(field, start, end)` -/
def whereBetween (s : BState) (field : String) (start stop : GaqlValue) : OpResult :=
  if ¬ isValidFieldName field then
    (some (.validation ("Invalid field name. Expected: alphanumeric with dots/underscores or aggregate function, Received: \"" ++ field ++ "\"")), s)
  else
    (none, { s with whereConditions := s.whereConditions ++ [field ++ " BETWEEN " ++ formatValue start ++ " AND " ++ formatValue stop] })

/-- `whereContainsAll(field, values)` -/
def whereContainsAll (s : BState) (field : String) (values : List GaqlValue) : OpResult :=
  if values.length = 0 then
    (some (.validation ("CONTAINS ALL clause requires at least one value. Expected: non-empty array, Received: empty array for field \"" ++ field ++ "\"")), s)
  else if ¬ isValidFieldName field then
    (some (.validation ("Invalid field name. Expected: alphanumeric with dots/underscores or aggregate function, Received: \"" ++ field ++ "\"")), s)
  else
    (none, { s with whereConditions := s.whereConditions ++ [field ++ " CONTAINS ALL (" ++ String.intercalate ", " (values.map formatValue) ++ ")"] })

/-- `whereContainsAny(field, values)` -/
def whereContainsAny (s : BState) (field : String) (values : List GaqlValue) : OpResult :=
  if values.length = 0 then
    (some (.validation ("CONTAINS ANY clause requires at least one value. Expected: non-empty array, Received: empty array for field \"" ++ field ++ "\"")), s)
  else if ¬ isValidFieldName field then
    (some (.validation ("Invalid field name. Expected: alphanumeric with dots/underscores or aggregate function, Received: \"" ++ field ++ "\"")), s)
  else
    (none, { s with whereConditions := s.whereConditions ++ [field ++ " CONTAINS ANY (" ++ String.intercalate ", " (values.map formatValue) ++ ")"] })

/-- `whereContainsNone(field, values)` -/
def whereContainsNone (s : BState) (field : String) (values : List GaqlValue) : OpResult :=
  if values.length = 0 then
    (some (.validation ("CONTAINS NONE clause requires at least one value. Expected: non-empty array, Received: empty array for field \"" ++ field ++ "\"")), s)
  else if ¬ isValidFieldName field then
    (some (.validation ("Invalid field name. Expected: alphanumeric with dots/underscores or aggregate function, Received: \"" ++ field ++ "\"")), s)
  else
    (none, { s with whereConditions := s.whereConditions ++ [field ++ " CONTAINS NONE (" ++ String.intercalate ", " (values.map formatValue) ++ ")"] })

/-- The regex `/^\d{4}-\d{2}-\d{2}$/` used by `whereDuring` to decide
whether the range is a custom date that needs quoting. -/
def isCustomDateFormat (s : String) : Bool :=
  match s.data with
  | [a, b, c, d, '-', e, f, '-', g, h] =>
    a.isDigit && b.isDigit && c.isDigit && d.isDigit &&
      e.isDigit && f.isDigit && g.isDigit && h.isDigit
  | _ => false

/-- `whereDuring(field, dateRange)` -/
def whereDuring (s : BState) (field dateRange : String) : OpResult :=
  if ¬ isValidFieldName field then
    (some (.validation ("Invalid field name. Expected: alphanumeric with dots/underscores or aggregate function, Received: \"" ++ field ++ "\"")), s)
  else if ¬ isValidDateRange dateRange then
    (some (.validation ("Invalid date range. Expected one of: TODAY, YESTERDAY, LAST_7_DAYS, LAST_14_DAYS, LAST_30_DAYS, LAST_BUSINESS_WEEK, LAST_WEEK_SUN_SAT, LAST_WEEK_MON_SUN, THIS_MONTH, LAST_MONTH, ALL_TIME, or date in YYYY-MM-DD format, Received: \"" ++ dateRange ++ "\"")), s)
  else
    let formattedRange := if isCustomDateFormat dateRange then "'" ++ dateRange ++ "'" else dateRange
    (none, { s with whereConditions := s.whereConditions ++ [field ++ " DURING " ++ formattedRange] })

/-- `whereRegexpMatch(field, pattern)` — validates the field, then the
pattern's safety, then appends. -/
def whereRegexpMatch (s : BState) (field pattern : String) : OpResult :=
  if ¬ isValidFieldName field then
    (some (.validation ("Invalid field name. Expected: alphanumeric with dots/underscores or aggregate function, Received: \"" ++ field ++ "\"")), s)
  else if ¬ isSafeRegexPattern pattern then
    (some (.security "Regex pattern is potentially dangerous (ReDoS risk). Pattern exceeds complexity limits or contains dangerous constructs."), s)
  else
    (none, { s with whereConditions := s.whereConditions ++ [field ++ " REGEXP_MATCH '" ++ formatPattern pattern ++ "'"] })

/-- `whereNotRegexpMatch(field, pattern)` -/
def whereNotRegexpMatch (s : BState) (field pattern : String) : OpResult :=
  if ¬ isValidFieldName field then
    (some (.validation ("Invalid field name. Expected: alphanumeric with dots/underscores or aggregate function, Received: \"" ++ field ++ "\"")), s)
  else if ¬ isSafeRegexPattern pattern then
    (some (.security "Regex pattern is potentially dangerous (ReDoS risk). Pattern exceeds complexity limits or contains dangerous constructs."), s)
  else
    (none, { s with whereConditions := s.whereConditions ++ [field ++ " NOT REGEXP_MATCH '" ++ formatPattern pattern ++ "'"] })

/-- The `for (const field of fields)` loop of `groupBy`: each field is
trimmed, validated and pushed one at a time, so the fields preceding the
first invalid one are already pushed when the error is thrown. -/
def groupByLoop (acc : List String) : List String → Option GaqlError × List String
  | [] => (none, acc)
  | f :: rest =>
    let t := f.jsTrim
    if isValidFieldName t then groupByLoop (acc ++ [t]) rest
    else
      (some (.validation ("Invalid field name. Expected: alphanumeric with dots/underscores or aggregate function, Received: \"" ++ t ++ "\"")), acc)

/-- `groupBy(fields)` -/
def groupBy (s : BState) (fields : List String) : OpResult :=
  if fields.length = 0 then
    (some (.validation "GROUP BY clause requires at least one field. Expected: non-empty array, Received: empty array"), s)
  else
    let (e, gfs) := groupByLoop s.groupByFields fields
    (e, { s with groupByFields := gfs })

/-- `orderBy(field, direction)` — runtime check of the direction string, then
field validation, then push. -/
def orderBy (s : BState) (field direction : String) : OpResult :=
  if ¬ SORT_DIRECTIONS.contains direction then
    (some (.validation ("ORDER BY direction invalid. Expected: ASC or DESC, Received: " ++ direction)), s)
  else if ¬ isValidFieldName field then
    (some (.validation ("Invalid field name. Expected: alphanumeric with dots/underscores or aggregate function, Received: \"" ++ field ++ "\"")), s)
  else
    (none, { s with orderByFields := s.orderByFields ++ [(field, direction)] })

/-- `Number.isInteger` on the modelled numbers. -/
def jsIsInteger : JSNum → Bool
  | .int _ => true
  | _ => false

/-- `count > 0` on the modelled numbers. -/
def jsPos : JSNum → Bool
  | .int k => k > 0
  | .inf => true
  | _ => false

/-- `limit(count)` -/
def limit (s : BState) (count : JSNum) : OpResult :=
  if ¬ (jsIsInteger count && jsPos count) then
    (some (.validation ("LIMIT must be a positive integer. Expected: positive integer, Received: " ++ count.render)), s)
  else
    (none, { s with limitCount := some count })

/-- Truth of "the parameter value is a boolean or a finite number" — the two
runtime checks of `parameters` (`typeof` and `Number.isFinite`) combined. -/
def paramValueOk : GaqlValue → Bool
  | .bool _ => true
  | .num n => n.isFinite
  | _ => false

/-- The validation loop of `parameters`: for each entry, the name grammar,
then the `typeof` check, then the finiteness check; the first failure throws. -/
def paramsCheck : List (String × GaqlValue) → Option GaqlError
  | [] => none
  | (name, value) :: rest =>
    if ¬ isValidParameterName name then
      some (.validation ("Invalid parameter name. Expected: alphanumeric with underscores only, Received: \"" ++ name ++ "\""))
    else
      match value with
      | .bool _ => paramsCheck rest
      | .num n =>
        if n.isFinite then paramsCheck rest
        else some (.security ("Invalid parameter value for '" ++ name ++ "'. Expected: finite number, Received: " ++ n.render))
      | _ => some (.security ("Invalid parameter value type for '" ++ name ++ "'. Expected: boolean or number, Received: non-number"))

/-- `parameters(params)` — empty check, count ceiling, per-entry validation,
then wholesale replacement of the stored map. -/
def parameters (s : BState) (params : List (String × GaqlValue)) : OpResult :=
  if params.length = 0 then
    (some (.validation "PARAMETERS clause requires at least one parameter. Expected: non-empty object, Received: empty object"), s)
  else if params.length > MAX_PARAMETERS then
    (some (.queryLimit ("PARAMETERS clause exceeds maximum parameter limit. Expected: <= 50 parameters, Received: " ++ toString params.length ++ " parameters")), s)
  else
    match paramsCheck params with
    | some e => (some e, s)
    | none => (none, { s with queryParameters := params })

/-! ### Rendering (`build` and its clause helpers) -/

def buildSelectClause (s : BState) : String :=
  "SELECT " ++ String.intercalate ", " s.selectFields

def buildFromClause (s : BState) : String :=
  "FROM " ++ s.fromResource

def buildWhereClause (s : BState) : String :=
  if s.whereConditions.length = 0 then ""
  else "WHERE " ++ String.intercalate " AND " s.whereConditions

def buildGroupByClause (s : BState) : String :=
  if s.groupByFields.length = 0 then ""
  else "GROUP BY " ++ String.intercalate ", " s.groupByFields

def buildOrderByClause (s : BState) : String :=
  if s.orderByFields.length = 0 then ""
  else "ORDER BY " ++ String.intercalate ", " (s.orderByFields.map fun fd => fd.1 ++ " " ++ fd.2)

def buildLimitClause (s : BState) : String :=
  match s.limitCount with
  | none => ""
  | some n => "LIMIT " ++ n.render

def buildParametersClause (s : BState) : String :=
  if s.queryParameters.length = 0 then ""
  else
    "PARAMETERS " ++ String.intercalate ", "
      (s.queryParameters.map fun kv => kv.1 ++ " = " ++ formatParameterValue kv.2)

/-- The `parts` array assembled by `build`: SELECT and FROM always, then each
optional clause when non-empty, in the fixed source order. -/
def buildParts (s : BState) : List String :=
  [buildSelectClause s, buildFromClause s] ++
    (if buildWhereClause s = "" then [] else [buildWhereClause s]) ++
    (if buildGroupByClause s = "" then [] else [buildGroupByClause s]) ++
    (if buildOrderByClause s = "" then [] else [buildOrderByClause s]) ++
    (if buildLimitClause s = "" then [] else [buildLimitClause s]) ++
    (if buildParametersClause s = "" then [] else [buildParametersClause s])

/-- `build()` — required-clause validation, clause assembly in fixed order,
size validation.  The middle component is the state of the object after the
call: the source method only reads the private fields, so it is the input
state in every branch. -/
def build (s : BState) : Option GaqlError × BState × Option String :=
  if s.selectFields.length = 0 then
    (some (.queryBuild "SELECT clause is required. Expected: at least one field selected, Received: no fields selected"), s, none)
  else if s.fromResource = "" then
    (some (.queryBuild "FROM clause is required. Expected: resource name, Received: empty resource"), s, none)
  else
    let query := String.intercalate " " (buildParts s)
    if query.length > MAX_QUERY_LENGTH then
      (some (.queryLimit ("Query exceeds maximum length limit. Expected: <= 100000 characters, Received: " ++ toString query.length ++ " characters")), s, none)
    else
      (none, s, some query)

end GaqlBuilder

/-! ## Call sequences (used to state order-invariance of the fluent API) -/

open GaqlBuilder in
/-- One fluent call together with its arguments, for the six operations of
the order-invariance claim. -/
inductive COp where
  | sel : List String → COp
  | frm : String → COp
  | whr : String → String → GaqlValue → COp
  | ord : String → String → COp
  | lim : JSNum → COp
  | par : List (String × GaqlValue) → COp
deriving DecidableEq, Repr

/-- Dispatch of a `COp` to the corresponding builder method. -/
def applyOp (s : BState) : COp → OpResult
  | .sel fs => GaqlBuilder.select s fs
  | .frm r => GaqlBuilder.fromOp s r
  | .whr f o v => GaqlBuilder.whereOp s f o v
  | .ord f d => GaqlBuilder.orderBy s f d
  | .lim n => GaqlBuilder.limit s n
  | .par ps => GaqlBuilder.parameters s ps

/-- The state update performed by a `COp` when it succeeds. -/
def stepU (s : BState) : COp → BState
  | .sel fs => { s with selectFields := fs.map String.jsTrim }
  | .frm r => { s with fromResource := r.jsTrim }
  | .whr f o v => { s with whereConditions := s.whereConditions ++ [GaqlBuilder.formatCondition f o v] }
  | .ord f d => { s with orderByFields := s.orderByFields ++ [(f, d)] }
  | .lim n => { s with limitCount := some n }
  | .par ps => { s with queryParameters := ps }

/-- Argument validity of a `COp`: exactly the conditions under which the
corresponding method does not throw (for `whr`, in addition to the
state-dependent condition ceiling). -/
def opValid : COp → Prop
  | .sel fs => fs ≠ [] ∧ fs.length ≤ MAX_SELECT_FIELDS ∧ ∀ f ∈ fs, isValidFieldName f.jsTrim = true
  | .frm r => r.jsTrim ≠ "" ∧ isValidResourceName r.jsTrim = true
  | .whr f o _ => isValidOperator o = true ∧ isValidFieldName f = true
  | .ord f d => SORT_DIRECTIONS.contains d = true ∧ isValidFieldName f = true
  | .lim n => (GaqlBuilder.jsIsInteger n && GaqlBuilder.jsPos n) = true
  | .par ps => ps ≠ [] ∧ ps.length ≤ MAX_PARAMETERS ∧ GaqlBuilder.paramsCheck ps = none

instance : DecidablePred opValid := fun op => by
  cases op <;> (unfold opValid) <;> infer_instance

/-- Running a method chain: a thrown error aborts the remaining calls, as an
exception does in the source. -/
def runOps : List COp → BState → OpResult
  | [], s => (none, s)
  | op :: rest, s =>
    match applyOp s op with
    | (none, s') => runOps rest s'
    | (some e, s') => (some e, s')

/-! ## Specification-side definitions (for refinement claims) -/

/-- Modelled from the spec: "a string matching `YYYY-MM-DD` whose components
form a real calendar date (reject month 13, day 30 in February, day 31 in a
30-day month; honor leap years for February 29)". -/
def isRealCalendarDate (y m d : Int) : Prop :=
  1 ≤ m ∧ m ≤ 12 ∧ 1 ≤ d ∧ d ≤ daysInMonth y m

instance (y m d : Int) : Decidable (isRealCalendarDate y m d) := by
  unfold isRealCalendarDate; infer_instance

/-! ## Helper lemmas about the builder operations -/

namespace GaqlBuilder

theorem mapTrimValidate_eq_ok {fs ts} (h : mapTrimValidate fs = .ok ts) :
    ts = fs.map String.jsTrim := by
  induction fs generalizing ts with
  | nil => simpa [mapTrimValidate] using h.symm
  | cons f rest ih =>
    by_cases hv : isValidFieldName f.jsTrim = true
    · simp only [mapTrimValidate, hv, if_pos] at h
      revert h
      split
      · intro h
        cases h
        simp_all
      · intro h
        cases h
    · simp [mapTrimValidate, hv] at h

theorem mapTrimValidate_ok_of_valid {fs} (h : ∀ f ∈ fs, isValidFieldName f.jsTrim = true) :
    mapTrimValidate fs = .ok (fs.map String.jsTrim) := by
  induction fs with
  | nil => simp [mapTrimValidate]
  | cons f rest ih =>
    have hf : isValidFieldName f.jsTrim = true := h f (by simp)
    have hrest := ih fun g hg => h g (by simp [hg])
    simp [mapTrimValidate, hf, hrest]

/-- Every branch of `select` either succeeds or returns the unchanged state. -/
theorem select_frame (s : BState) (fields : List String) :
    (select s fields).1 = none ∨ (select s fields).2 = s := by
  unfold select
  split
  · exact Or.inr rfl
  · split
    · exact Or.inr rfl
    · split
      · exact Or.inl rfl
      · exact Or.inr rfl

theorem select_success (s : BState) (fields : List String)
    (h : (select s fields).1 = none) :
    (select s fields).2 = { s with selectFields := fields.map String.jsTrim } := by
  revert h
  unfold select
  split
  · intro h
    cases h
  · split
    · intro h
      cases h
    · split
      · intro _
        simp only []
        congr 1
        exact mapTrimValidate_eq_ok ‹_›
      · intro h
        cases h

end GaqlBuilder

namespace GaqlBuilder

theorem fromOp_frame (s : BState) (r : String) :
    (fromOp s r).1 = none ∨ (fromOp s r).2 = s := by
  unfold fromOp
  try dsimp only
  split_ifs <;> simp

theorem fromOp_success (s : BState) (r : String) (h : (fromOp s r).1 = none) :
    (fromOp s r).2 = { s with fromResource := r.jsTrim } := by
  revert h
  unfold fromOp
  try dsimp only
  split_ifs <;> simp

theorem whereOp_frame (s : BState) (f o : String) (v : GaqlValue) :
    (whereOp s f o v).1 = none ∨ (whereOp s f o v).2 = s := by
  unfold whereOp
  try dsimp only
  split_ifs <;> simp

theorem whereOp_success (s : BState) (f o : String) (v : GaqlValue)
    (h : (whereOp s f o v).1 = none) :
    (whereOp s f o v).2 = { s with whereConditions := s.whereConditions ++ [formatCondition f o v] } := by
  revert h
  unfold whereOp
  try dsimp only
  split_ifs <;> simp

theorem whereIn_frame (s : BState) (f : String) (vs : List GaqlValue) :
    (whereIn s f vs).1 = none ∨ (whereIn s f vs).2 = s := by
  unfold whereIn
  try dsimp only
  split_ifs <;> simp

theorem whereNotIn_frame (s : BState) (f : String) (vs : List GaqlValue) :
    (whereNotIn s f vs).1 = none ∨ (whereNotIn s f vs).2 = s := by
  unfold whereNotIn
  try dsimp only
  split_ifs <;> simp

theorem whereLike_frame (s : BState) (f p : String) :
    (whereLike s f p).1 = none ∨ (whereLike s f p).2 = s := by
  unfold whereLike
  try dsimp only
  split_ifs <;> simp

theorem whereLike_success (s : BState) (f p : String) (h : isValidFieldName f = true) :
    whereLike s f p =
      (none, { s with whereConditions := s.whereConditions ++ [f ++ " LIKE '" ++ formatPattern p ++ "'"] }) := by
  simp [whereLike, h]

theorem whereNotLike_frame (s : BState) (f p : String) :
    (whereNotLike s f p).1 = none ∨ (whereNotLike s f p).2 = s := by
  unfold whereNotLike
  try dsimp only
  split_ifs <;> simp

theorem whereNotLike_success (s : BState) (f p : String) (h : isValidFieldName f = true) :
    whereNotLike s f p =
      (none, { s with whereConditions := s.whereConditions ++ [f ++ " NOT LIKE '" ++ formatPattern p ++ "'"] }) := by
  simp [whereNotLike, h]

theorem whereNull_frame (s : BState) (f : String) :
    (whereNull s f).1 = none ∨ (whereNull s f).2 = s := by
  unfold whereNull
  try dsimp only
  split_ifs <;> simp

theorem whereNotNull_frame (s : BState) (f : String) :
    (whereNotNull s f).1 = none ∨ (whereNotNull s f).2 = s := by
  unfold whereNotNull
  try dsimp only
  split_ifs <;> simp

theorem whereBetween_frame (s : BState) (f : String) (a b : GaqlValue) :
    (whereBetween s f a b).1 = none ∨ (whereBetween s f a b).2 = s := by
  unfold whereBetween
  try dsimp only
  split_ifs <;> simp

theorem whereContainsAll_frame (s : BState) (f : String) (vs : List GaqlValue) :
    (whereContainsAll s f vs).1 = none ∨ (whereContainsAll s f vs).2 = s := by
  unfold whereContainsAll
  try dsimp only
  split_ifs <;> simp

theorem whereContainsAny_frame (s : BState) (f : String) (vs : List GaqlValue) :
    (whereContainsAny s f vs).1 = none ∨ (whereContainsAny s f vs).2 = s := by
  unfold whereContainsAny
  try dsimp only
  split_ifs <;> simp

theorem whereContainsNone_frame (s : BState) (f : String) (vs : List GaqlValue) :
    (whereContainsNone s f vs).1 = none ∨ (whereContainsNone s f vs).2 = s := by
  unfold whereContainsNone
  try dsimp only
  split_ifs <;> simp

theorem whereDuring_frame (s : BState) (f dr : String) :
    (whereDuring s f dr).1 = none ∨ (whereDuring s f dr).2 = s := by
  unfold whereDuring
  try dsimp only
  split_ifs <;> simp

theorem whereRegexpMatch_frame (s : BState) (f p : String) :
    (whereRegexpMatch s f p).1 = none ∨ (whereRegexpMatch s f p).2 = s := by
  unfold whereRegexpMatch
  try dsimp only
  split_ifs <;> simp

theorem whereRegexpMatch_unsafe (s : BState) (f p : String)
    (hf : isValidFieldName f = true) (hp : isSafeRegexPattern p = false) :
    whereRegexpMatch s f p =
      (some (.security "Regex pattern is potentially dangerous (ReDoS risk). Pattern exceeds complexity limits or contains dangerous constructs."), s) := by
  simp [whereRegexpMatch, hf, hp]

theorem whereRegexpMatch_success (s : BState) (f p : String) (s' : BState)
    (h : whereRegexpMatch s f p = (none, s')) :
    isSafeRegexPattern p = true ∧
      s'.whereConditions = s.whereConditions ++ [f ++ " REGEXP_MATCH '" ++ formatPattern p ++ "'"] := by
  revert h
  unfold whereRegexpMatch
  try dsimp only
  split_ifs with h1 h2 <;> intro h <;> cases h
  exact ⟨h2, rfl⟩

theorem whereNotRegexpMatch_frame (s : BState) (f p : String) :
    (whereNotRegexpMatch s f p).1 = none ∨ (whereNotRegexpMatch s f p).2 = s := by
  unfold whereNotRegexpMatch
  try dsimp only
  split_ifs <;> simp

theorem whereNotRegexpMatch_unsafe (s : BState) (f p : String)
    (hf : isValidFieldName f = true) (hp : isSafeRegexPattern p = false) :
    whereNotRegexpMatch s f p =
      (some (.security "Regex pattern is potentially dangerous (ReDoS risk). Pattern exceeds complexity limits or contains dangerous constructs."), s) := by
  simp [whereNotRegexpMatch, hf, hp]

theorem whereNotRegexpMatch_success (s : BState) (f p : String) (s' : BState)
    (h : whereNotRegexpMatch s f p = (none, s')) :
    isSafeRegexPattern p = true ∧
      s'.whereConditions = s.whereConditions ++ [f ++ " NOT REGEXP_MATCH '" ++ formatPattern p ++ "'"] := by
  revert h
  unfold whereNotRegexpMatch
  try dsimp only
  split_ifs with h1 h2 <;> intro h <;> cases h
  exact ⟨h2, rfl⟩

theorem orderBy_frame (s : BState) (f d : String) :
    (orderBy s f d).1 = none ∨ (orderBy s f d).2 = s := by
  unfold orderBy
  try dsimp only
  split_ifs <;> simp

theorem orderBy_success (s : BState) (f d : String) (h : (orderBy s f d).1 = none) :
    (orderBy s f d).2 = { s with orderByFields := s.orderByFields ++ [(f, d)] } := by
  revert h
  unfold orderBy
  try dsimp only
  split_ifs <;> simp

theorem limit_frame (s : BState) (n : JSNum) :
    (limit s n).1 = none ∨ (limit s n).2 = s := by
  unfold limit
  try dsimp only
  split_ifs <;> simp

theorem limit_success (s : BState) (n : JSNum) (h : (limit s n).1 = none) :
    (limit s n).2 = { s with limitCount := some n } := by
  revert h
  unfold limit
  try dsimp only
  split_ifs <;> simp

theorem parameters_frame (s : BState) (ps : List (String × GaqlValue)) :
    (parameters s ps).1 = none ∨ (parameters s ps).2 = s := by
  unfold parameters
  try dsimp only
  split_ifs <;> [simp; simp; skip]
  split <;> simp

theorem parameters_success (s : BState) (ps : List (String × GaqlValue))
    (h : (parameters s ps).1 = none) :
    (parameters s ps).2 = { s with queryParameters := ps } := by
  revert h
  unfold parameters
  try dsimp only
  split_ifs <;> [simp; simp; skip]
  split <;> simp

theorem groupByLoop_acc (acc : List String) (fs : List String) :
    (groupByLoop acc fs).2 = acc ++ ((fs.map String.jsTrim).takeWhile isValidFieldName) := by
  induction fs generalizing acc with
  | nil => simp [groupByLoop]
  | cons f rest ih =>
    by_cases hv : isValidFieldName f.jsTrim = true
    · simp [groupByLoop, hv, ih, List.takeWhile_cons]
    · simp [groupByLoop, hv, List.takeWhile_cons]

theorem groupByLoop_ok (acc : List String) (fs : List String)
    (h : (groupByLoop acc fs).1 = none) :
    (groupByLoop acc fs).2 = acc ++ fs.map String.jsTrim := by
  induction fs generalizing acc with
  | nil => simp [groupByLoop]
  | cons f rest ih =>
    by_cases hv : isValidFieldName f.jsTrim = true
    · simp only [groupByLoop, hv, if_pos] at h ⊢
      simp [ih _ h]
    · simp [groupByLoop, hv] at h

theorem groupBy_state (s : BState) (fs : List String) (h : fs ≠ []) :
    (groupBy s fs).2 =
      { s with groupByFields := s.groupByFields ++ ((fs.map String.jsTrim).takeWhile isValidFieldName) } := by
  have hlen : ¬ fs.length = 0 := by simpa using h
  simp only [groupBy, hlen, if_neg, not_false_iff]
  simpa using congrArg (fun g => ({ s with groupByFields := g } : BState)) (groupByLoop_acc s.groupByFields fs)

theorem groupBy_success (s : BState) (fs : List String) (h : (groupBy s fs).1 = none) :
    (groupBy s fs).2 = { s with groupByFields := s.groupByFields ++ fs.map String.jsTrim } := by
  by_cases hfs : fs.length = 0
  · simp [groupBy, hfs] at h
  · simp only [groupBy, hfs, if_neg, not_false_iff] at h ⊢
    simpa using congrArg (fun g => ({ s with groupByFields := g } : BState)) (groupByLoop_ok s.groupByFields fs h)

end GaqlBuilder

/-! ## Order-invariance machinery -/

theorem applyOp_success (op : COp) (s : BState) (h : opValid op)
    (hw : s.whereConditions.length < MAX_WHERE_CONDITIONS) :
    applyOp s op = (none, stepU s op) := by
  cases op with
  | sel fs =>
    obtain ⟨h1, h2, h3⟩ := h
    have hlen : ¬ fs.length = 0 := by simpa using h1
    have hmax : ¬ fs.length > MAX_SELECT_FIELDS := by omega
    simp [applyOp, GaqlBuilder.select, stepU, hlen, hmax,
      GaqlBuilder.mapTrimValidate_ok_of_valid h3]
  | frm r =>
    obtain ⟨h1, h2⟩ := h
    simp [applyOp, GaqlBuilder.fromOp, stepU, h1, h2]
  | whr f o v =>
    obtain ⟨h1, h2⟩ := h
    have hmax : ¬ s.whereConditions.length ≥ MAX_WHERE_CONDITIONS := by omega
    simp [applyOp, GaqlBuilder.whereOp, stepU, h1, h2, hmax]
  | ord f d =>
    obtain ⟨h1, h2⟩ := h
    have h1' : d ∈ SORT_DIRECTIONS := by simpa using h1
    simp [applyOp, GaqlBuilder.orderBy, stepU, h1', h2]
  | lim n =>
    rw [opValid, Bool.and_eq_true] at h
    simp [applyOp, GaqlBuilder.limit, stepU, h.1, h.2]
  | par ps =>
    obtain ⟨h1, h2, h3⟩ := h
    have hlen : ¬ ps.length = 0 := by simpa using h1
    have hmax : ¬ ps.length > MAX_PARAMETERS := by omega
    simp [applyOp, GaqlBuilder.parameters, stepU, hlen, hmax, h3]

theorem stepU_whereConditions_le (s : BState) (op : COp) :
    (stepU s op).whereConditions.length ≤ s.whereConditions.length + 1 := by
  cases op <;> simp [stepU]

theorem runOps_eq_foldl (l : List COp) (s : BState)
    (hv : ∀ x ∈ l, opValid x)
    (hw : s.whereConditions.length + l.length ≤ MAX_WHERE_CONDITIONS) :
    runOps l s = (none, l.foldl stepU s) := by
  induction l generalizing s with
  | nil => simp [runOps]
  | cons op rest ih =>
    have hop : opValid op := hv op (by simp)
    have h1 : s.whereConditions.length < MAX_WHERE_CONDITIONS := by
      simp only [List.length_cons] at hw
      omega
    have h2 : (stepU s op).whereConditions.length + rest.length ≤ MAX_WHERE_CONDITIONS := by
      have := stepU_whereConditions_le s op
      simp only [List.length_cons] at hw
      omega
    have ihr := ih (stepU s op) (fun x hx => hv x (by simp [hx])) h2
    rw [runOps, applyOp_success op s hop h1]
    simpa [List.foldl_cons] using ihr

/-- **C1** — For every builder state reachable by one call to each of
`select`, `from`, `where`, `orderBy`, `limit` and `parameters` with fixed
valid arguments, the result of the chain (and hence the string returned by
`build()`) is identical no matter in which order the six fluent calls were
made; and on the concrete instance the rendered string lists the clauses in
the fixed order SELECT, FROM, WHERE, ORDER BY, LIMIT, PARAMETERS. -/
theorem c1_clause_order_invariance
    (fs : List String) (r wf wo : String) (wv : GaqlValue) (obf obd : String)
    (n : JSNum) (ps : List (String × GaqlValue))
    (hsel : opValid (.sel fs)) (hfrm : opValid (.frm r))
    (hwhr : opValid (.whr wf wo wv)) (hord : opValid (.ord obf obd))
    (hlim : opValid (.lim n)) (hpar : opValid (.par ps))
    (l : List COp)
    (hperm : l.Perm [COp.sel fs, COp.frm r, COp.whr wf wo wv, COp.ord obf obd,
      COp.lim n, COp.par ps]) :
    runOps l emptyBuilder =
      runOps [COp.sel fs, COp.frm r, COp.whr wf wo wv, COp.ord obf obd,
        COp.lim n, COp.par ps] emptyBuilder ∧
    (GaqlBuilder.build (runOps [COp.sel ["id"], COp.frm "campaign",
        COp.whr "status" "=" (.str "ENABLED"), COp.ord "id" "DESC", COp.lim (.int 5),
        COp.par [("include_drafts", .bool true)]] emptyBuilder).2).2.2 =
      some "SELECT id FROM campaign WHERE status = 'ENABLED' ORDER BY id DESC LIMIT 5 PARAMETERS include_drafts = true" := by
  refine ⟨?_, by decide⟩
  have hvc : ∀ x ∈ [COp.sel fs, COp.frm r, COp.whr wf wo wv, COp.ord obf obd,
      COp.lim n, COp.par ps], opValid x := by
    intro x hx
    simp only [List.mem_cons, List.not_mem_nil, or_false] at hx
    rcases hx with rfl | rfl | rfl | rfl | rfl | rfl <;> assumption
  have hvl : ∀ x ∈ l, opValid x := fun x hx => hvc x (hperm.subset hx)
  have hl6 : l.length = 6 := by rw [hperm.length_eq]; rfl
  have hb1 : runOps l emptyBuilder = (none, l.foldl stepU emptyBuilder) := by
    refine runOps_eq_foldl l emptyBuilder hvl ?_
    rw [hl6]
    decide
  have hb2 : runOps [COp.sel fs, COp.frm r, COp.whr wf wo wv, COp.ord obf obd,
      COp.lim n, COp.par ps] emptyBuilder =
      (none, ([COp.sel fs, COp.frm r, COp.whr wf wo wv, COp.ord obf obd,
        COp.lim n, COp.par ps]).foldl stepU emptyBuilder) := by
    refine runOps_eq_foldl _ emptyBuilder hvc ?_
    show emptyBuilder.whereConditions.length + 6 ≤ MAX_WHERE_CONDITIONS
    decide
  have hf : l.foldl stepU emptyBuilder = ([COp.sel fs, COp.frm r, COp.whr wf wo wv,
      COp.ord obf obd, COp.lim n, COp.par ps]).foldl stepU emptyBuilder := by
    refine hperm.foldl_eq' ?_ emptyBuilder
    intro x hx y hy z
    have hx' : x ∈ [COp.sel fs, COp.frm r, COp.whr wf wo wv, COp.ord obf obd,
      COp.lim n, COp.par ps] := hperm.subset hx
    have hy' : y ∈ [COp.sel fs, COp.frm r, COp.whr wf wo wv, COp.ord obf obd,
      COp.lim n, COp.par ps] := hperm.subset hy
    simp only [List.mem_cons, List.not_mem_nil, or_false] at hx' hy'
    rcases hx' with rfl | rfl | rfl | rfl | rfl | rfl <;>
      rcases hy' with rfl | rfl | rfl | rfl | rfl | rfl <;> rfl
  rw [hb1, hb2, hf]

/-- Witness for C1: the fully reversed call order produces the same result as
the canonical order, with the concrete rendered string. -/
theorem c1_clause_order_invariance_witness :
    runOps [COp.par [("include_drafts", .bool true)], COp.lim (.int 5),
        COp.ord "id" "DESC", COp.whr "status" "=" (.str "ENABLED"),
        COp.frm "campaign", COp.sel ["id"]] emptyBuilder =
      runOps [COp.sel ["id"], COp.frm "campaign", COp.whr "status" "=" (.str "ENABLED"),
        COp.ord "id" "DESC", COp.lim (.int 5),
        COp.par [("include_drafts", .bool true)]] emptyBuilder ∧
    (GaqlBuilder.build (runOps [COp.sel ["id"], COp.frm "campaign",
        COp.whr "status" "=" (.str "ENABLED"), COp.ord "id" "DESC", COp.lim (.int 5),
        COp.par [("include_drafts", .bool true)]] emptyBuilder).2).2.2 =
      some "SELECT id FROM campaign WHERE status = 'ENABLED' ORDER BY id DESC LIMIT 5 PARAMETERS include_drafts = true" :=
  c1_clause_order_invariance ["id"] "campaign" "status" "=" (.str "ENABLED") "id" "DESC"
    (.int 5) [("include_drafts", .bool true)]
    (by decide) (by decide) (by decide) (by decide) (by decide) (by decide)
    _ (by decide)

/-- **C8** — The chain `select(['id']).from('campaign')
.where('status','=','ENABLED').orderBy('id','DESC').limit(5)` throws at no
step, and `build()` returns exactly
`SELECT id FROM campaign WHERE status = 'ENABLED' ORDER BY id DESC LIMIT 5`. -/
theorem c8_concrete_render :
    (GaqlBuilder.select emptyBuilder ["id"]).1 = none ∧
    (GaqlBuilder.fromOp (GaqlBuilder.select emptyBuilder ["id"]).2 "campaign").1 = none ∧
    (GaqlBuilder.whereOp (GaqlBuilder.fromOp (GaqlBuilder.select emptyBuilder ["id"]).2
      "campaign").2 "status" "=" (.str "ENABLED")).1 = none ∧
    (GaqlBuilder.orderBy (GaqlBuilder.whereOp (GaqlBuilder.fromOp
      (GaqlBuilder.select emptyBuilder ["id"]).2 "campaign").2 "status" "="
      (.str "ENABLED")).2 "id" "DESC").1 = none ∧
    (GaqlBuilder.limit (GaqlBuilder.orderBy (GaqlBuilder.whereOp (GaqlBuilder.fromOp
      (GaqlBuilder.select emptyBuilder ["id"]).2 "campaign").2 "status" "="
      (.str "ENABLED")).2 "id" "DESC").2 (.int 5)).1 = none ∧
    (GaqlBuilder.build (GaqlBuilder.limit (GaqlBuilder.orderBy (GaqlBuilder.whereOp
      (GaqlBuilder.fromOp (GaqlBuilder.select emptyBuilder ["id"]).2 "campaign").2
      "status" "=" (.str "ENABLED")).2 "id" "DESC").2 (.int 5)).2).2.2 =
      some "SELECT id FROM campaign WHERE status = 'ENABLED' ORDER BY id DESC LIMIT 5" := by
  decide

/-- Counterexample to **C2** as stated: `select` is not a collection setter —
a second call replaces the field list instead of accumulating it. -/
theorem c2_select_replaces_counterexample :
    (GaqlBuilder.select (GaqlBuilder.select emptyBuilder ["a"]).2 ["b"]).1 = none ∧
    (GaqlBuilder.select (GaqlBuilder.select emptyBuilder ["a"]).2 ["b"]).2.selectFields = ["b"] ∧
    (GaqlBuilder.select (GaqlBuilder.select emptyBuilder ["a"]).2 ["b"]).2.selectFields ≠ ["a", "b"] := by
  decide

/-- **C2 (amended)** — Repeated-call semantics: `from`, `limit` and also
`select` keep only the last call's value; `where`, `groupBy` and `orderBy`
accumulate (two `where` calls yield two conjuncts joined with AND by the
WHERE-clause renderer); a second `parameters` call replaces the whole map. -/
theorem c2_repeated_call_policy :
    (∀ (s : BState) (r₁ r₂ : String),
      (GaqlBuilder.fromOp (GaqlBuilder.fromOp s r₁).2 r₂).1 = none →
      ((GaqlBuilder.fromOp (GaqlBuilder.fromOp s r₁).2 r₂).2).fromResource = r₂.jsTrim) ∧
    (∀ (s : BState) (n₁ n₂ : JSNum),
      (GaqlBuilder.limit (GaqlBuilder.limit s n₁).2 n₂).1 = none →
      ((GaqlBuilder.limit (GaqlBuilder.limit s n₁).2 n₂).2).limitCount = some n₂) ∧
    (∀ (s : BState) (fs₁ fs₂ : List String),
      (GaqlBuilder.select (GaqlBuilder.select s fs₁).2 fs₂).1 = none →
      ((GaqlBuilder.select (GaqlBuilder.select s fs₁).2 fs₂).2).selectFields =
        fs₂.map String.jsTrim) ∧
    (∀ (s : BState) (f₁ o₁ f₂ o₂ : String) (v₁ v₂ : GaqlValue),
      (GaqlBuilder.whereOp s f₁ o₁ v₁).1 = none →
      (GaqlBuilder.whereOp (GaqlBuilder.whereOp s f₁ o₁ v₁).2 f₂ o₂ v₂).1 = none →
      ((GaqlBuilder.whereOp (GaqlBuilder.whereOp s f₁ o₁ v₁).2 f₂ o₂ v₂).2).whereConditions =
        s.whereConditions ++
          [GaqlBuilder.formatCondition f₁ o₁ v₁, GaqlBuilder.formatCondition f₂ o₂ v₂]) ∧
    (∀ c₁ c₂ : String,
      GaqlBuilder.buildWhereClause { whereConditions := [c₁, c₂] } =
        "WHERE " ++ c₁ ++ " AND " ++ c₂) ∧
    (∀ (s : BState) (fs₁ fs₂ : List String),
      (GaqlBuilder.groupBy s fs₁).1 = none →
      (GaqlBuilder.groupBy (GaqlBuilder.groupBy s fs₁).2 fs₂).1 = none →
      ((GaqlBuilder.groupBy (GaqlBuilder.groupBy s fs₁).2 fs₂).2).groupByFields =
        s.groupByFields ++ fs₁.map String.jsTrim ++ fs₂.map String.jsTrim) ∧
    (∀ (s : BState) (f₁ d₁ f₂ d₂ : String),
      (GaqlBuilder.orderBy s f₁ d₁).1 = none →
      (GaqlBuilder.orderBy (GaqlBuilder.orderBy s f₁ d₁).2 f₂ d₂).1 = none →
      ((GaqlBuilder.orderBy (GaqlBuilder.orderBy s f₁ d₁).2 f₂ d₂).2).orderByFields =
        s.orderByFields ++ [(f₁, d₁), (f₂, d₂)]) ∧
    (∀ (s : BState) (ps₁ ps₂ : List (String × GaqlValue)),
      (GaqlBuilder.parameters (GaqlBuilder.parameters s ps₁).2 ps₂).1 = none →
      ((GaqlBuilder.parameters (GaqlBuilder.parameters s ps₁).2 ps₂).2).queryParameters = ps₂) := by
  refine ⟨?_, ?_, ?_, ?_, ?_, ?_, ?_, ?_⟩
  · intro s r₁ r₂ h
    rw [GaqlBuilder.fromOp_success _ _ h]
  · intro s n₁ n₂ h
    rw [GaqlBuilder.limit_success _ _ h]
  · intro s fs₁ fs₂ h
    rw [GaqlBuilder.select_success _ _ h]
  · intro s f₁ o₁ f₂ o₂ v₁ v₂ h₁ h₂
    rw [GaqlBuilder.whereOp_success _ _ _ _ h₂, GaqlBuilder.whereOp_success _ _ _ _ h₁]
    simp
  · intro c₁ c₂
    show "WHERE " ++ ((c₁ ++ " AND ") ++ c₂) = "WHERE " ++ c₁ ++ " AND " ++ c₂
    simp [String.append_assoc]
  · intro s fs₁ fs₂ h₁ h₂
    rw [GaqlBuilder.groupBy_success _ _ h₂, GaqlBuilder.groupBy_success _ _ h₁]
  · intro s f₁ d₁ f₂ d₂ h₁ h₂
    rw [GaqlBuilder.orderBy_success _ _ _ h₂, GaqlBuilder.orderBy_success _ _ _ h₁]
    simp
  · intro s ps₁ ps₂ h
    rw [GaqlBuilder.parameters_success _ _ h]

/-- Witness for the amended C2, at concrete repeated calls. -/
theorem c2_repeated_call_policy_witness :
    ((GaqlBuilder.fromOp (GaqlBuilder.fromOp emptyBuilder "ad_group").2 "campaign").2).fromResource
      = "campaign".jsTrim ∧
    ((GaqlBuilder.whereOp (GaqlBuilder.whereOp emptyBuilder "a" "=" (.str "x")).2
      "b" ">" (.num (.int 1))).2).whereConditions =
      emptyBuilder.whereConditions ++
        [GaqlBuilder.formatCondition "a" "=" (.str "x"),
         GaqlBuilder.formatCondition "b" ">" (.num (.int 1))] ∧
    ((GaqlBuilder.parameters (GaqlBuilder.parameters emptyBuilder [("a", .bool true)]).2
      [("b", .bool false)]).2).queryParameters = [("b", .bool false)] :=
  ⟨c2_repeated_call_policy.1 emptyBuilder "ad_group" "campaign" (by decide),
   c2_repeated_call_policy.2.2.2.1 emptyBuilder "a" "=" "b" ">" (.str "x") (.num (.int 1))
     (by decide) (by decide),
   c2_repeated_call_policy.2.2.2.2.2.2.2 emptyBuilder [("a", .bool true)] [("b", .bool false)]
     (by decide)⟩

set_option maxRecDepth 40000 in
/-- **C3** — evidence of the missing ceilings: a `whereIn` call with 1001
values (one past `MAX_ARRAY_VALUES`) raises no error and appends its
condition, an 11th grouping key and an 11th ordering key are accepted
without a `QueryLimitError`, contradicting the claim, the repository's
`limits.test.ts` expectations and the declared `QUERY_LIMITS` ceilings. -/
theorem c3_ceilings_not_enforced :
    (GaqlBuilder.whereIn emptyBuilder "status" (List.replicate 1001 (.str "x"))).1 = none ∧
    (GaqlBuilder.whereIn emptyBuilder "status"
      (List.replicate 1001 (.str "x"))).2.whereConditions.length = 1 ∧
    (GaqlBuilder.groupBy emptyBuilder (List.replicate 11 "f")).1 = none ∧
    (GaqlBuilder.groupBy emptyBuilder (List.replicate 11 "f")).2.groupByFields.length = 11 ∧
    (GaqlBuilder.orderBy ((fun s => (GaqlBuilder.orderBy s "f" "ASC").2)^[10] emptyBuilder)
      "f" "ASC").1 = none ∧
    (GaqlBuilder.orderBy ((fun s => (GaqlBuilder.orderBy s "f" "ASC").2)^[10] emptyBuilder)
      "f" "ASC").2.orderByFields.length = 11 := by
  decide

/-- Counterexample to **C4** as stated: `whereLike` performs no pattern
safety check — the unsafe pattern `.*.*` is accepted and appended instead of
raising a `SecurityError`. -/
theorem c4_like_unchecked_counterexample :
    isSafeRegexPattern ".*.*" = false ∧
    (GaqlBuilder.whereLike emptyBuilder "name" ".*.*").1 = none ∧
    (GaqlBuilder.whereLike emptyBuilder "name" ".*.*").2.whereConditions =
      ["name LIKE '.*.*'"] := by
  decide

/-- **C4 (amended)** — Only `whereRegexpMatch` and `whereNotRegexpMatch`
safety-check patterns: with a valid field, a pattern failing
`isSafeRegexPattern` raises a `SecurityError` and appends nothing, and a
pattern reaches the appended condition only after passing the checker;
`whereLike` and `whereNotLike` apply quote-escaping only and accept any
pattern. -/
theorem c4_pattern_safety :
    (∀ (s : BState) (f p : String), isValidFieldName f = true →
      isSafeRegexPattern p = false →
      GaqlBuilder.whereRegexpMatch s f p =
        (some (.security "Regex pattern is potentially dangerous (ReDoS risk). Pattern exceeds complexity limits or contains dangerous constructs."), s)) ∧
    (∀ (s : BState) (f p : String), isValidFieldName f = true →
      isSafeRegexPattern p = false →
      GaqlBuilder.whereNotRegexpMatch s f p =
        (some (.security "Regex pattern is potentially dangerous (ReDoS risk). Pattern exceeds complexity limits or contains dangerous constructs."), s)) ∧
    (∀ (s : BState) (f p : String) (s' : BState),
      GaqlBuilder.whereRegexpMatch s f p = (none, s') →
      isSafeRegexPattern p = true ∧
        s'.whereConditions = s.whereConditions ++
          [f ++ " REGEXP_MATCH '" ++ GaqlBuilder.formatPattern p ++ "'"]) ∧
    (∀ (s : BState) (f p : String) (s' : BState),
      GaqlBuilder.whereNotRegexpMatch s f p = (none, s') →
      isSafeRegexPattern p = true ∧
        s'.whereConditions = s.whereConditions ++
          [f ++ " NOT REGEXP_MATCH '" ++ GaqlBuilder.formatPattern p ++ "'"]) ∧
    (∀ (s : BState) (f p : String), isValidFieldName f = true →
      GaqlBuilder.whereLike s f p =
        (none, { s with whereConditions := s.whereConditions ++
          [f ++ " LIKE '" ++ GaqlBuilder.formatPattern p ++ "'"] })) ∧
    (∀ (s : BState) (f p : String), isValidFieldName f = true →
      GaqlBuilder.whereNotLike s f p =
        (none, { s with whereConditions := s.whereConditions ++
          [f ++ " NOT LIKE '" ++ GaqlBuilder.formatPattern p ++ "'"] })) :=
  ⟨fun s f p hf hp => GaqlBuilder.whereRegexpMatch_unsafe s f p hf hp,
   fun s f p hf hp => GaqlBuilder.whereNotRegexpMatch_unsafe s f p hf hp,
   fun s f p s' h => GaqlBuilder.whereRegexpMatch_success s f p s' h,
   fun s f p s' h => GaqlBuilder.whereNotRegexpMatch_success s f p s' h,
   fun s f p hf => GaqlBuilder.whereLike_success s f p hf,
   fun s f p hf => GaqlBuilder.whereNotLike_success s f p hf⟩

/-- Witness for the amended C4 at concrete inputs. -/
theorem c4_pattern_safety_witness :
    GaqlBuilder.whereRegexpMatch emptyBuilder "name" ".*.*" =
      (some (.security "Regex pattern is potentially dangerous (ReDoS risk). Pattern exceeds complexity limits or contains dangerous constructs."), emptyBuilder) ∧
    (isSafeRegexPattern "(?i).*brand.*" = true ∧
      (GaqlBuilder.whereRegexpMatch emptyBuilder "name" "(?i).*brand.*").2.whereConditions =
        emptyBuilder.whereConditions ++ ["name REGEXP_MATCH '(?i).*brand.*'"]) :=
  ⟨c4_pattern_safety.1 emptyBuilder "name" ".*.*" (by decide) (by decide),
   c4_pattern_safety.2.2.1 emptyBuilder "name" "(?i).*brand.*" _ (by decide)⟩

/-- Counterexample to **C5** as stated: a `groupBy` call whose list contains
an invalid field after a valid one throws but leaves the valid prefix pushed
— the builder is mutated by the failing call. -/
theorem c5_groupby_partial_mutation_counterexample :
    ((GaqlBuilder.groupBy emptyBuilder ["a", "b b"]).1).isSome = true ∧
    (GaqlBuilder.groupBy emptyBuilder ["a", "b b"]).2 ≠ emptyBuilder ∧
    (GaqlBuilder.groupBy emptyBuilder ["a", "b b"]).2.groupByFields = ["a"] := by
  decide

/-- **C5 (amended)** — Every fluent operation except `groupBy` is atomic: if
it throws, the builder state after the call equals the state before it
(`select` in particular validates the whole list before assigning).
`groupBy` is the exception: it pushes the trimmed valid prefix of its
argument before throwing on the first invalid field. -/
theorem c5_atomicity :
    (∀ (s : BState) (fs : List String) (e : GaqlError),
      (GaqlBuilder.select s fs).1 = some e → (GaqlBuilder.select s fs).2 = s) ∧
    (∀ (s : BState) (r : String) (e : GaqlError),
      (GaqlBuilder.fromOp s r).1 = some e → (GaqlBuilder.fromOp s r).2 = s) ∧
    (∀ (s : BState) (f o : String) (v : GaqlValue) (e : GaqlError),
      (GaqlBuilder.whereOp s f o v).1 = some e → (GaqlBuilder.whereOp s f o v).2 = s) ∧
    (∀ (s : BState) (f o : String) (v : GaqlValue) (e : GaqlError),
      (GaqlBuilder.andWhere s f o v).1 = some e → (GaqlBuilder.andWhere s f o v).2 = s) ∧
    (∀ (s : BState) (f : String) (vs : List GaqlValue) (e : GaqlError),
      (GaqlBuilder.whereIn s f vs).1 = some e → (GaqlBuilder.whereIn s f vs).2 = s) ∧
    (∀ (s : BState) (f : String) (vs : List GaqlValue) (e : GaqlError),
      (GaqlBuilder.whereNotIn s f vs).1 = some e → (GaqlBuilder.whereNotIn s f vs).2 = s) ∧
    (∀ (s : BState) (f p : String) (e : GaqlError),
      (GaqlBuilder.whereLike s f p).1 = some e → (GaqlBuilder.whereLike s f p).2 = s) ∧
    (∀ (s : BState) (f p : String) (e : GaqlError),
      (GaqlBuilder.whereNotLike s f p).1 = some e → (GaqlBuilder.whereNotLike s f p).2 = s) ∧
    (∀ (s : BState) (f : String) (e : GaqlError),
      (GaqlBuilder.whereNull s f).1 = some e → (GaqlBuilder.whereNull s f).2 = s) ∧
    (∀ (s : BState) (f : String) (e : GaqlError),
      (GaqlBuilder.whereNotNull s f).1 = some e → (GaqlBuilder.whereNotNull s f).2 = s) ∧
    (∀ (s : BState) (f : String) (a b : GaqlValue) (e : GaqlError),
      (GaqlBuilder.whereBetween s f a b).1 = some e → (GaqlBuilder.whereBetween s f a b).2 = s) ∧
    (∀ (s : BState) (f : String) (vs : List GaqlValue) (e : GaqlError),
      (GaqlBuilder.whereContainsAll s f vs).1 = some e → (GaqlBuilder.whereContainsAll s f vs).2 = s) ∧
    (∀ (s : BState) (f : String) (vs : List GaqlValue) (e : GaqlError),
      (GaqlBuilder.whereContainsAny s f vs).1 = some e → (GaqlBuilder.whereContainsAny s f vs).2 = s) ∧
    (∀ (s : BState) (f : String) (vs : List GaqlValue) (e : GaqlError),
      (GaqlBuilder.whereContainsNone s f vs).1 = some e → (GaqlBuilder.whereContainsNone s f vs).2 = s) ∧
    (∀ (s : BState) (f dr : String) (e : GaqlError),
      (GaqlBuilder.whereDuring s f dr).1 = some e → (GaqlBuilder.whereDuring s f dr).2 = s) ∧
    (∀ (s : BState) (f p : String) (e : GaqlError),
      (GaqlBuilder.whereRegexpMatch s f p).1 = some e → (GaqlBuilder.whereRegexpMatch s f p).2 = s) ∧
    (∀ (s : BState) (f p : String) (e : GaqlError),
      (GaqlBuilder.whereNotRegexpMatch s f p).1 = some e → (GaqlBuilder.whereNotRegexpMatch s f p).2 = s) ∧
    (∀ (s : BState) (f d : String) (e : GaqlError),
      (GaqlBuilder.orderBy s f d).1 = some e → (GaqlBuilder.orderBy s f d).2 = s) ∧
    (∀ (s : BState) (n : JSNum) (e : GaqlError),
      (GaqlBuilder.limit s n).1 = some e → (GaqlBuilder.limit s n).2 = s) ∧
    (∀ (s : BState) (ps : List (String × GaqlValue)) (e : GaqlError),
      (GaqlBuilder.parameters s ps).1 = some e → (GaqlBuilder.parameters s ps).2 = s) ∧
    (∀ (s : BState) (fs : List String), fs ≠ [] →
      (GaqlBuilder.groupBy s fs).2 =
        { s with groupByFields :=
            s.groupByFields ++ ((fs.map String.jsTrim).takeWhile isValidFieldName) }) := by
  refine ⟨?_, ?_, ?_, ?_, ?_, ?_, ?_, ?_, ?_, ?_, ?_, ?_, ?_, ?_, ?_, ?_, ?_, ?_, ?_, ?_, ?_⟩
  · intro s fs e he
    exact (GaqlBuilder.select_frame s fs).resolve_left (by simp [he])
  · intro s r e he
    exact (GaqlBuilder.fromOp_frame s r).resolve_left (by simp [he])
  · intro s f o v e he
    exact (GaqlBuilder.whereOp_frame s f o v).resolve_left (by simp [he])
  · intro s f o v e he
    exact (GaqlBuilder.whereOp_frame s f o v).resolve_left (by simp [GaqlBuilder.andWhere] at he ⊢; simp [he])
  · intro s f vs e he
    exact (GaqlBuilder.whereIn_frame s f vs).resolve_left (by simp [he])
  · intro s f vs e he
    exact (GaqlBuilder.whereNotIn_frame s f vs).resolve_left (by simp [he])
  · intro s f p e he
    exact (GaqlBuilder.whereLike_frame s f p).resolve_left (by simp [he])
  · intro s f p e he
    exact (GaqlBuilder.whereNotLike_frame s f p).resolve_left (by simp [he])
  · intro s f e he
    exact (GaqlBuilder.whereNull_frame s f).resolve_left (by simp [he])
  · intro s f e he
    exact (GaqlBuilder.whereNotNull_frame s f).resolve_left (by simp [he])
  · intro s f a b e he
    exact (GaqlBuilder.whereBetween_frame s f a b).resolve_left (by simp [he])
  · intro s f vs e he
    exact (GaqlBuilder.whereContainsAll_frame s f vs).resolve_left (by simp [he])
  · intro s f vs e he
    exact (GaqlBuilder.whereContainsAny_frame s f vs).resolve_left (by simp [he])
  · intro s f vs e he
    exact (GaqlBuilder.whereContainsNone_frame s f vs).resolve_left (by simp [he])
  · intro s f dr e he
    exact (GaqlBuilder.whereDuring_frame s f dr).resolve_left (by simp [he])
  · intro s f p e he
    exact (GaqlBuilder.whereRegexpMatch_frame s f p).resolve_left (by simp [he])
  · intro s f p e he
    exact (GaqlBuilder.whereNotRegexpMatch_frame s f p).resolve_left (by simp [he])
  · intro s f d e he
    exact (GaqlBuilder.orderBy_frame s f d).resolve_left (by simp [he])
  · intro s n e he
    exact (GaqlBuilder.limit_frame s n).resolve_left (by simp [he])
  · intro s ps e he
    exact (GaqlBuilder.parameters_frame s ps).resolve_left (by simp [he])
  · intro s fs hfs
    exact GaqlBuilder.groupBy_state s fs hfs

/-- Witness for the amended C5 at concrete failing calls. -/
theorem c5_atomicity_witness :
    (GaqlBuilder.select emptyBuilder ["a", "b b"]).2 = emptyBuilder ∧
    (GaqlBuilder.limit emptyBuilder (.int 0)).2 = emptyBuilder ∧
    (GaqlBuilder.groupBy emptyBuilder ["a", "b b"]).2 =
      { emptyBuilder with groupByFields :=
          emptyBuilder.groupByFields ++
            ((["a", "b b"].map String.jsTrim).takeWhile isValidFieldName) } :=
  ⟨c5_atomicity.1 emptyBuilder ["a", "b b"]
      (.validation "Invalid field name. Expected: alphanumeric with dots/underscores or aggregate function, Received: \"b b\"") (by decide),
   c5_atomicity.2.2.2.2.2.2.2.2.2.2.2.2.2.2.2.2.2.2.1 emptyBuilder (.int 0)
      (.validation "LIMIT must be a positive integer. Expected: positive integer, Received: 0") (by decide),
   c5_atomicity.2.2.2.2.2.2.2.2.2.2.2.2.2.2.2.2.2.2.2.2 emptyBuilder ["a", "b b"] (by decide)⟩

/-- **C9** — `build()` is a pure function of the builder state: it returns
the state unchanged in every branch, a successful build repeated with no
intervening mutation returns the identical string, and mutating calls after
`build()` behave exactly as they would have before it. -/
theorem c9_build_is_pure :
    (∀ s : BState, (GaqlBuilder.build s).2.1 = s) ∧
    (∀ (s s' : BState) (q : String), GaqlBuilder.build s = (none, s', some q) →
      GaqlBuilder.build s' = (none, s', some q)) ∧
    (∀ (s : BState) (f o : String) (v : GaqlValue),
      GaqlBuilder.whereOp (GaqlBuilder.build s).2.1 f o v = GaqlBuilder.whereOp s f o v) := by
  have hstate : ∀ s : BState, (GaqlBuilder.build s).2.1 = s := by
    intro s
    unfold GaqlBuilder.build
    try dsimp only
    split_ifs <;> rfl
  refine ⟨hstate, ?_, ?_⟩
  · intro s s' q h
    have h1 := hstate s
    rw [h] at h1
    dsimp at h1
    rw [h1]
    rw [h1] at h
    exact h
  · intro s f o v
    rw [hstate s]

/-- Witness for C9: re-building the state returned by a successful build
yields the identical result. -/
theorem c9_build_is_pure_witness :
    GaqlBuilder.build (BState.mk ["id"] "campaign" [] [] [] none []) =
      (none, BState.mk ["id"] "campaign" [] [] [] none [], some "SELECT id FROM campaign") :=
  c9_build_is_pure.2.1 (BState.mk ["id"] "campaign" [] [] [] none [])
    (BState.mk ["id"] "campaign" [] [] [] none []) "SELECT id FROM campaign" (by decide)

theorem paramsCheck_security (ps : List (String × GaqlValue))
    (hn : ∀ kv ∈ ps, isValidParameterName kv.1 = true)
    (hx : ∃ kv ∈ ps, ∃ n : JSNum, kv.2 = .num n ∧ n.isFinite = false) :
    ∃ msg, GaqlBuilder.paramsCheck ps = some (.security msg) := by
  induction ps with
  | nil => simp at hx
  | cons kv rest ih =>
    obtain ⟨name, v⟩ := kv
    have hname : isValidParameterName name = true := hn (name, v) (by simp)
    have hrest : ∀ kv ∈ rest, isValidParameterName kv.1 = true :=
      fun kv hk => hn kv (by simp [hk])
    cases v with
    | bool b =>
      have hx' : ∃ kv ∈ rest, ∃ n : JSNum, kv.2 = .num n ∧ n.isFinite = false := by
        rcases hx with ⟨kv', hmem, n, hv, hnf⟩
        rcases List.mem_cons.mp hmem with rfl | hmem'
        · cases hv
        · exact ⟨kv', hmem', n, hv, hnf⟩
      simpa [GaqlBuilder.paramsCheck, hname] using ih hrest hx'
    | num n =>
      by_cases hf : n.isFinite = true
      · have hx' : ∃ kv ∈ rest, ∃ n : JSNum, kv.2 = .num n ∧ n.isFinite = false := by
          rcases hx with ⟨kv', hmem, n', hv, hnf⟩
          rcases List.mem_cons.mp hmem with rfl | hmem'
          · simp at hv
            rw [hv] at hf
            rw [hf] at hnf
            cases hnf
          · exact ⟨kv', hmem', n', hv, hnf⟩
        simpa [GaqlBuilder.paramsCheck, hname, hf] using ih hrest hx'
      · exact ⟨"Invalid parameter value for '" ++ name ++ "'. Expected: finite number, Received: " ++ n.render,
          by simp [GaqlBuilder.paramsCheck, hname, hf]⟩
    | str t =>
      exact ⟨"Invalid parameter value type for '" ++ name ++ "'. Expected: boolean or number, Received: non-number",
        by simp [GaqlBuilder.paramsCheck, hname]⟩
    | null =>
      exact ⟨"Invalid parameter value type for '" ++ name ++ "'. Expected: boolean or number, Received: non-number",
        by simp [GaqlBuilder.paramsCheck, hname]⟩

theorem paramsCheck_none_valid (ps : List (String × GaqlValue))
    (h : GaqlBuilder.paramsCheck ps = none) :
    ∀ kv ∈ ps, GaqlBuilder.paramValueOk kv.2 = true := by
  induction ps with
  | nil => simp
  | cons kv rest ih =>
    obtain ⟨name, v⟩ := kv
    by_cases hname : isValidParameterName name = true
    · cases v with
      | bool b =>
        simp only [GaqlBuilder.paramsCheck, hname, if_pos] at h
        intro kv hk
        rcases List.mem_cons.mp hk with rfl | hk'
        · simp [GaqlBuilder.paramValueOk]
        · exact ih (by simpa using h) kv hk'
      | num n =>
        by_cases hf : n.isFinite = true
        · simp only [GaqlBuilder.paramsCheck, hname, hf, if_pos] at h
          intro kv hk
          rcases List.mem_cons.mp hk with rfl | hk'
          · simp [GaqlBuilder.paramValueOk, hf]
          · refine ih ?_ kv hk'
            simpa [hf] using h
        · simp [GaqlBuilder.paramsCheck, hname, hf] at h
      | str t => simp [GaqlBuilder.paramsCheck, hname] at h
      | null => simp [GaqlBuilder.paramsCheck, hname] at h
    · simp [GaqlBuilder.paramsCheck, hname] at h

theorem parameters_ok_paramsCheck (s : BState) (ps : List (String × GaqlValue))
    (h : (GaqlBuilder.parameters s ps).1 = none) :
    GaqlBuilder.paramsCheck ps = none := by
  revert h
  unfold GaqlBuilder.parameters
  split_ifs <;> intro h
  · cases h
  · cases h
  · revert h
    split
    · intro h
      cases h
    · intro _
      assumption

/-- Counterexample to **C10** as stated: a 51-entry parameter map containing
`NaN` raises a `QueryLimitError` (the size ceiling is checked before any
value), not a `SecurityError`. -/
theorem c10_queryLimit_before_security_counterexample :
    (("q", GaqlValue.num .nan) ∈
      (("q", GaqlValue.num .nan) ::
        (List.range 50).map fun i => ("p" ++ toString i, GaqlValue.bool true))) ∧
    GaqlBuilder.parameters emptyBuilder
        (("q", GaqlValue.num .nan) ::
          (List.range 50).map fun i => ("p" ++ toString i, GaqlValue.bool true)) =
      (some (.queryLimit "PARAMETERS clause exceeds maximum parameter limit. Expected: <= 50 parameters, Received: 51 parameters"), emptyBuilder) := by
  decide

/-- **C10 (amended)** — `parameters` rejects non-finite numeric values: once
the emptiness, size and name checks that precede value validation pass, a map
containing `NaN`, `Infinity` or `-Infinity` raises a `SecurityError`; every
failing `parameters` call leaves the stored map unchanged; a successful call
stores only booleans and finite numbers, which the PARAMETERS-clause
formatter renders as lowercase `true`/`false` or a decimal numeral. -/
theorem c10_parameters_reject_nonfinite :
    (∀ (s : BState) (ps : List (String × GaqlValue)),
      ps.length ≤ MAX_PARAMETERS →
      (∀ kv ∈ ps, isValidParameterName kv.1 = true) →
      (∃ kv ∈ ps, ∃ n : JSNum, kv.2 = .num n ∧ n.isFinite = false) →
      ∃ msg, GaqlBuilder.parameters s ps = (some (.security msg), s)) ∧
    (∀ (s : BState) (ps : List (String × GaqlValue)) (e : GaqlError),
      (GaqlBuilder.parameters s ps).1 = some e → (GaqlBuilder.parameters s ps).2 = s) ∧
    (∀ (s : BState) (ps : List (String × GaqlValue)) (s' : BState),
      GaqlBuilder.parameters s ps = (none, s') →
      s'.queryParameters = ps ∧ ∀ kv ∈ ps, GaqlBuilder.paramValueOk kv.2 = true) ∧
    (∀ v : GaqlValue, GaqlBuilder.paramValueOk v = true →
      GaqlBuilder.formatParameterValue v = "true" ∨
      GaqlBuilder.formatParameterValue v = "false" ∨
      ∃ k : Int, v = .num (.int k) ∧ GaqlBuilder.formatParameterValue v = toString k) := by
  refine ⟨?_, ?_, ?_, ?_⟩
  · intro s ps hlen hn hx
    obtain ⟨msg, hmsg⟩ := paramsCheck_security ps hn hx
    refine ⟨msg, ?_⟩
    have hne : ¬ ps.length = 0 := by
      rcases hx with ⟨kv, hmem, _⟩
      cases ps
      · simp at hmem
      · simp
    have hmax : ¬ ps.length > MAX_PARAMETERS := by omega
    simp [GaqlBuilder.parameters, hne, hmax, hmsg]
  · intro s ps e he
    exact (GaqlBuilder.parameters_frame s ps).resolve_left (by simp [he])
  · intro s ps s' h
    have h1 : (GaqlBuilder.parameters s ps).1 = none := by rw [h]
    have h2 := GaqlBuilder.parameters_success s ps h1
    rw [h] at h2
    dsimp at h2
    constructor
    · rw [h2]
    · exact paramsCheck_none_valid ps (parameters_ok_paramsCheck s ps h1)
  · intro v hv
    cases v with
    | bool b => cases b <;> simp [GaqlBuilder.formatParameterValue]
    | num n =>
      cases n with
      | int k => exact Or.inr (Or.inr ⟨k, rfl, rfl⟩)
      | nan => simp [GaqlBuilder.paramValueOk, JSNum.isFinite] at hv
      | inf => simp [GaqlBuilder.paramValueOk, JSNum.isFinite] at hv
      | negInf => simp [GaqlBuilder.paramValueOk, JSNum.isFinite] at hv
    | str t => simp [GaqlBuilder.paramValueOk] at hv
    | null => simp [GaqlBuilder.paramValueOk] at hv

/-- Witness for the amended C10 at concrete inputs. -/
theorem c10_parameters_reject_nonfinite_witness :
    (∃ msg, GaqlBuilder.parameters emptyBuilder [("a", GaqlValue.num .nan)] =
      (some (.security msg), emptyBuilder)) ∧
    ((GaqlBuilder.parameters emptyBuilder [("a", .bool true), ("b", .num (.int 7))]).2
      |>.queryParameters) = [("a", .bool true), ("b", .num (.int 7))] :=
  ⟨c10_parameters_reject_nonfinite.1 emptyBuilder [("a", GaqlValue.num .nan)]
      (by decide) (by decide) ⟨("a", GaqlValue.num .nan), by decide, .nan, rfl, rfl⟩,
   (c10_parameters_reject_nonfinite.2.2.1 emptyBuilder
      [("a", .bool true), ("b", .num (.int 7))] _ (by decide)).1⟩

/-! ## Date-validator lemmas -/


theorem daysInMonth_bounds (y m : Int) : 28 ≤ daysInMonth y m ∧ daysInMonth y m ≤ 31 := by
  unfold daysInMonth
  split_ifs <;> norm_num

theorem normDay_id (fuel : Nat) (y m d : Int) (h1 : 1 ≤ d) (h2 : d ≤ daysInMonth y m) :
    normDay (fuel + 1) y m d = (y, m, d) := by
  unfold normDay
  have h3 : ¬ d < 1 := by omega
  have h4 : ¬ d > daysInMonth y m := by omega
  simp [h3, h4]

theorem normDay_year_ge (fuel : Nat) :
    ∀ y m d : Int, 1 ≤ d → y ≤ (normDay fuel y m d).1 := by
  induction fuel with
  | zero =>
    intro y m d _
    simp [normDay]
  | succ n ih =>
    intro y m d hd
    unfold normDay
    have h3 : ¬ d < 1 := by omega
    simp only [h3, if_false]
    split_ifs with hroll hm12
    · have := ih (y + 1) 1 (d - daysInMonth y m) (by omega)
      omega
    · have := ih y (m + 1) (d - daysInMonth y m) (by omega)
      omega
    · simp

theorem normDay_month_range (fuel : Nat) :
    ∀ y m d : Int, 1 ≤ m → m ≤ 12 → 0 ≤ d →
      1 ≤ (normDay fuel y m d).2.1 ∧ (normDay fuel y m d).2.1 ≤ 12 := by
  induction fuel with
  | zero =>
    intro y m d hm1 hm2 _
    simp [normDay]
    omega
  | succ n ih =>
    intro y m d hm1 hm2 hd
    unfold normDay
    split_ifs with hborrow hm1' hroll hm12
    · have hb := daysInMonth_bounds (y - 1) 12
      exact ih (y - 1) 12 (d + daysInMonth (y - 1) 12) (by omega) (by omega) (by omega)
    · have hb := daysInMonth_bounds y (m - 1)
      exact ih y (m - 1) (d + daysInMonth y (m - 1)) (by omega) (by omega) (by omega)
    · exact ih (y + 1) 1 (d - daysInMonth y m) (by omega) (by omega) (by omega)
    · exact ih y (m + 1) (d - daysInMonth y m) (by omega) (by omega) (by omega)
    · simp
      omega

theorem normDay_monthPos_ge (fuel : Nat) :
    ∀ y m d : Int, 1 ≤ d →
      12 * y + m ≤ 12 * (normDay fuel y m d).1 + (normDay fuel y m d).2.1 := by
  induction fuel with
  | zero =>
    intro y m d _
    simp [normDay]
  | succ n ih =>
    intro y m d hd
    unfold normDay
    have h3 : ¬ d < 1 := by omega
    simp only [h3, if_false]
    split_ifs with hroll hm12
    · have := ih (y + 1) 1 (d - daysInMonth y m) (by omega)
      omega
    · have := ih y (m + 1) (d - daysInMonth y m) (by omega)
      omega
    · simp

theorem normDay_year_lb (fuel : Nat) (y m d : Int) (hd : 0 ≤ d) :
    y - 1 ≤ (normDay (fuel + 1) y m d).1 := by
  by_cases hd1 : 1 ≤ d
  · have := normDay_year_ge (fuel + 1) y m d hd1
    omega
  · unfold normDay
    have h3 : d < 1 := by omega
    simp only [h3, if_true]
    split_ifs with hm1
    · have hb := daysInMonth_bounds (y - 1) 12
      have := normDay_year_ge fuel (y - 1) 12 (d + daysInMonth (y - 1) 12) (by omega)
      omega
    · have hb := daysInMonth_bounds y (m - 1)
      have := normDay_year_ge fuel y (m - 1) (d + daysInMonth y (m - 1)) (by omega)
      omega

theorem normDay_day0 (fuel : Nat) (y m : Int) :
    28 ≤ (normDay (fuel + 2) y m 0).2.2 := by
  unfold normDay
  have h3 : (0 : Int) < 1 := by omega
  simp only [h3, if_true]
  split_ifs with hm1
  · have hb := daysInMonth_bounds (y - 1) 12
    rw [normDay_id fuel (y - 1) 12 (0 + daysInMonth (y - 1) 12) (by omega) (by omega)]
    simpa using hb.1
  · have hb := daysInMonth_bounds y (m - 1)
    rw [normDay_id fuel y (m - 1) (0 + daysInMonth y (m - 1)) (by omega) (by omega)]
    simpa using hb.1

theorem fdiv_emod_small (mi : Int) (h0 : 0 ≤ mi) (h1 : mi < 12) :
    Int.fdiv mi 12 = 0 ∧ Int.emod mi 12 = mi := by
  interval_cases mi <;> decide

theorem fdiv_neg_one : Int.fdiv (-1) 12 = -1 ∧ Int.emod (-1) 12 = 11 := by decide

theorem fdiv_nonneg_of_nonneg (mi : Int) (h0 : 0 ≤ mi) : 0 ≤ Int.fdiv mi 12 :=
  Int.fdiv_nonneg h0 (by norm_num)

theorem emod_range (mi : Int) : 0 ≤ Int.emod mi 12 ∧ Int.emod mi 12 < 12 :=
  ⟨Int.emod_nonneg mi (by norm_num), Int.emod_lt_of_pos mi (by norm_num)⟩

theorem jsRoundtrip_iff (y m d : Int)
    (hy0 : 0 ≤ y) (hy1 : y ≤ 9999) (hm0 : 0 ≤ m) (hm1 : m ≤ 99)
    (hd0 : 0 ≤ d) (hd1 : d ≤ 99) :
    jsNewDateYMD y (m - 1) d = (y, m, d) ↔ (100 ≤ y ∧ isRealCalendarDate y m d) := by
  unfold jsNewDateYMD
  constructor
  · intro h
    dsimp only at h
    by_cases hy : y ≤ 99
    · exfalso
      rw [if_pos (by simp [hy0, hy])] at h
      have hymlb : y + 1899 ≤ y + 1900 + Int.fdiv (m - 1) 12 := by
        by_cases hm_0 : m = 0
        · rw [hm_0]
          have he : (0 : Int) - 1 = -1 := by norm_num
          rw [he, fdiv_neg_one.1]
          omega
        · have := fdiv_nonneg_of_nonneg (m - 1) (by omega)
          omega
      have hres := normDay_year_lb 7 (y + 1900 + Int.fdiv (m - 1) 12)
        (Int.emod (m - 1) 12 + 1) d hd0
      norm_num at hres
      have hy' : (normDay 8 (y + 1900 + Int.fdiv (m - 1) 12)
          (Int.emod (m - 1) 12 + 1) d).1 = y := by rw [h]
      omega
    · have hy100 : 100 ≤ y := by omega
      rw [if_neg (by simp; omega)] at h
      refine ⟨hy100, ?_⟩
      by_cases hm_0 : m = 0
      · exfalso
        have hmr := normDay_month_range 8 (y + Int.fdiv (m - 1) 12)
          (Int.emod (m - 1) 12 + 1) d (by have := emod_range (m - 1); omega)
          (by have := emod_range (m - 1); omega) hd0
        have hm' : (normDay 8 (y + Int.fdiv (m - 1) 12)
            (Int.emod (m - 1) 12 + 1) d).2.1 = m := by rw [h]
        omega
      · by_cases hm13 : 13 ≤ m
        · exfalso
          have hmr := normDay_month_range 8 (y + Int.fdiv (m - 1) 12)
            (Int.emod (m - 1) 12 + 1) d (by have := emod_range (m - 1); omega)
            (by have := emod_range (m - 1); omega) hd0
          have hm' : (normDay 8 (y + Int.fdiv (m - 1) 12)
              (Int.emod (m - 1) 12 + 1) d).2.1 = m := by rw [h]
          omega
        · have hm1' : 1 ≤ m := by omega
          have hm12 : m ≤ 12 := by omega
          obtain ⟨hfd, hmd⟩ := fdiv_emod_small (m - 1) (by omega) (by omega)
          rw [hfd, hmd, add_zero] at h
          have hmm : m - 1 + 1 = m := by omega
          rw [hmm] at h
          by_cases hd_0 : d = 0
          · exfalso
            rw [hd_0] at h
            have hday := normDay_day0 6 y m
            norm_num at hday
            have hd' : (normDay 8 y m 0).2.2 = 0 := by rw [h]
            omega
          · have hd1' : 1 ≤ d := by omega
            by_cases hroll : d > daysInMonth y m
            · exfalso
              have hdim := daysInMonth_bounds y m
              rw [normDay] at h
              rw [if_neg (by omega), if_pos hroll] at h
              by_cases hm_12 : m = 12
              · rw [if_pos hm_12] at h
                have := normDay_monthPos_ge 7 (y + 1) 1 (d - daysInMonth y m) (by omega)
                have h1 : (normDay 7 (y + 1) 1 (d - daysInMonth y m)).1 = y := by rw [h]
                have h2 : (normDay 7 (y + 1) 1 (d - daysInMonth y m)).2.1 = m := by rw [h]
                omega
              · rw [if_neg hm_12] at h
                have := normDay_monthPos_ge 7 y (m + 1) (d - daysInMonth y m) (by omega)
                have h1 : (normDay 7 y (m + 1) (d - daysInMonth y m)).1 = y := by rw [h]
                have h2 : (normDay 7 y (m + 1) (d - daysInMonth y m)).2.1 = m := by rw [h]
                omega
            · exact ⟨hm1', hm12, hd1', by omega⟩
  · rintro ⟨hy100, hm1', hm12, hd1', hdim⟩
    dsimp only
    rw [if_neg (by simp; omega)]
    obtain ⟨hfd, hmd⟩ := fdiv_emod_small (m - 1) (by omega) (by omega)
    rw [hfd, hmd, add_zero]
    have hmm : m - 1 + 1 = m := by omega
    rw [hmm]
    exact normDay_id 7 y m d hd1' hdim

theorem digitVal_bounds (c : Char) (hc : c.isDigit = true) :
    0 ≤ digitVal c ∧ digitVal c ≤ 9 := by
  simp only [Char.isDigit, Bool.and_eq_true, decide_eq_true_eq] at hc
  obtain ⟨h1, h2⟩ := hc
  rw [ge_iff_le, UInt32.le_def, BitVec.le_def] at h1
  rw [UInt32.le_def, BitVec.le_def] at h2
  have h2' : c.toNat ≤ 57 := by simpa [Char.toNat] using h2
  have h0 : '0'.toNat = 48 := rfl
  unfold digitVal
  rw [h0]
  refine ⟨Int.ofNat_nonneg _, ?_⟩
  have h3 : c.toNat - 48 ≤ 9 := by omega
  calc Int.ofNat (c.toNat - 48) ≤ Int.ofNat 9 := Int.ofNat_le.mpr h3
    _ = 9 := rfl

theorem parseYMD_bounds (s : String) (y m d : Int) (h : parseYMD s = some (y, m, d)) :
    0 ≤ y ∧ y ≤ 9999 ∧ 0 ≤ m ∧ m ≤ 99 ∧ 0 ≤ d ∧ d ≤ 99 := by
  unfold parseYMD at h
  split at h
  · rename_i a b c dd e f g hh extra
    split_ifs at h with hdig
    · simp only [Bool.and_eq_true] at hdig
      obtain ⟨⟨⟨⟨⟨⟨⟨ha, hb⟩, hc⟩, hd'⟩, he⟩, hf⟩, hg⟩, hh'⟩ := hdig
      have Ba := digitVal_bounds a ha
      have Bb := digitVal_bounds b hb
      have Bc := digitVal_bounds c hc
      have Bd := digitVal_bounds dd hd'
      have Be := digitVal_bounds e he
      have Bf := digitVal_bounds f hf
      have Bg := digitVal_bounds g hg
      have Bh := digitVal_bounds hh hh'
      have h' : (((digitVal a * 10 + digitVal b) * 10 + digitVal c) * 10 + digitVal dd,
          digitVal e * 10 + digitVal f, digitVal g * 10 + digitVal hh) = (y, m, d) := by
        simpa using h
      injection h' with hy hrest
      injection hrest with hm hd2
      subst hy
      subst hm
      subst hd2
      refine ⟨by omega, by omega, by omega, by omega, by omega, by omega⟩
  · cases h

/-- Counterexample to **C6** as stated: `0001-01-01` matches `YYYY-MM-DD`
and its components form a real calendar date, yet `isValidDateRange` returns
`false`, because the `Date` constructor maps years 0–99 to 1900–1999 and the
round-trip comparison then fails. -/
theorem c6_two_digit_year_counterexample :
    parseYMD "0001-01-01" = some (1, 1, 1) ∧ isRealCalendarDate 1 1 1 ∧
    isValidDateRange "0001-01-01" = false := by
  refine ⟨by decide, by decide, by decide⟩

/-- **C6 (amended)** — `isValidDateRange(s)` returns true iff `s` is one of
the fixed relative-range tokens, or `s` matches `YYYY-MM-DD`, its components
form a real calendar date, and its year is at least 100 (years 0–99 are
rejected by the two-digit-year rule of the `Date` constructor); in
particular `2024-02-29` validates true, `2023-02-29` false and `2024-04-31`
false. -/
theorem c6_isValidDateRange_characterisation :
    (∀ s : String, isValidDateRange s = true ↔
      (VALID_DATE_RANGES.contains s = true ∨
        ∃ y m d : Int, parseYMD s = some (y, m, d) ∧ isRealCalendarDate y m d ∧ 100 ≤ y)) ∧
    isValidDateRange "2024-02-29" = true ∧
    isValidDateRange "2023-02-29" = false ∧
    isValidDateRange "2024-04-31" = false := by
  refine ⟨?_, by decide, by decide, by decide⟩
  intro s
  unfold isValidDateRange
  by_cases htok : VALID_DATE_RANGES.contains s = true
  · simp only [htok, if_true]
    simp [htok]
  · rw [if_neg htok]
    cases hp : parseYMD s with
    | none =>
      simp only [hp]
      constructor
      · intro hfalse
        cases hfalse
      · rintro (ht | ⟨y, m, d, hp', _, _⟩)
        · exact absurd ht htok
        · cases hp'
    | some t =>
      obtain ⟨y, md⟩ := t
      obtain ⟨m, d⟩ := md
      have hb := parseYMD_bounds s y m d hp
      simp only [decide_eq_true_eq]
      rw [jsRoundtrip_iff y m d hb.1 hb.2.1 hb.2.2.1 hb.2.2.2.1 hb.2.2.2.2.1 hb.2.2.2.2.2]
      constructor
      · rintro ⟨hy, hr⟩
        exact Or.inr ⟨y, m, d, rfl, hr, hy⟩
      · rintro (ht | ⟨y', m', d', hp', hr, hy⟩)
        · exact absurd ht htok
        · have h1 : (y, m, d) = (y', m', d') := by injection hp'
          injection h1 with hyy hrest
          injection hrest with hmm hdd
          subst hyy
          subst hmm
          subst hdd
          exact ⟨hy, hr⟩

/-- **C7** — `isSafeRegexPattern` rejects `.*.*`, rejects `(a+){1000,}`,
rejects every pattern longer than 1000 characters, and accepts
`(?i).*brand.*` and `[a-zA-Z0-9_-]+`. -/
theorem c7_regex_safety_vectors :
    isSafeRegexPattern ".*.*" = false ∧
    isSafeRegexPattern "(a+)\x7b1000,\x7d" = false ∧
    (∀ p : String, 1000 < p.length → isSafeRegexPattern p = false) ∧
    isSafeRegexPattern "(?i).*brand.*" = true ∧
    isSafeRegexPattern "[a-zA-Z0-9_-]+" = true := by
  refine ⟨by decide, by decide, ?_, by decide, by decide⟩
  intro p hp
  unfold isSafeRegexPattern
  have hlen : p.length > MAX_REGEX_LENGTH := hp
  simp [hlen]

set_option maxRecDepth 40000 in
/-- Witness for C7: a concrete 1001-character pattern is rejected. -/
theorem c7_regex_safety_vectors_witness :
    isSafeRegexPattern (String.mk (List.replicate 1001 'a')) = false :=
  c7_regex_safety_vectors.2.2.1 (String.mk (List.replicate 1001 'a'))
    (by simp [String.length, List.length_replicate])
